import Mathlib

/-!
# lands.ListenAndServe: listener selection and graceful shutdown

A shallow embedding of `lands.go`.  The one exported function
`ListenAndServe(ctx, addr, handler)` is modelled as a labelled transition
system with two threads (the calling goroutine and the shutdown coordinator
goroutine started at line 48), a capacity-one channel (`errShutdown`), the
merged cancellation context returned by `signal.NotifyContext`, and a trace
of the calls the code makes into `os`, `net`, `net/http` and `fmt`.

The results of the external calls (`os.Getenv`, `net.FileListener`,
`net.Listen`, `hs.Serve`, `hs.Shutdown`) are not computed by this package;
they are inputs of the model (`World` for the calls made during listener
setup, transition labels for the two blocking calls).
-/

namespace Lands

/-! ## Go values -/

/-- Go error values.  `other msg` is an error produced outside this package
whose `Error()` text is `msg`; `ErrServerClosed` is the sentinel
`http.ErrServerClosed`, a value distinct from every other error (the source
compares against it with `==` in a `switch`); `Errorf pfx inner` is the value
built by `fmt.Errorf(pfx + "%w", inner)`. -/
inductive GoError where
  | other (msg : String)
  | ErrServerClosed
  | Errorf (pfx : String) (inner : GoError)
  deriving DecidableEq, Repr

/-- The text of `err.Error()`. -/
def GoError.Error : GoError → String
  | .other msg => msg
  | .ErrServerClosed => "http: Server closed"
  | .Errorf pfx inner => pfx ++ inner.Error

/-- The value of `errors.Unwrap(err)`: the operand of `%w`, if any. -/
def GoError.Unwrap : GoError → Option GoError
  | .Errorf _ inner => some inner
  | _ => none

/-- OS signals that can be delivered to the process. -/
inductive Signal where
  | SIGINT
  | SIGTERM
  | SIGHUP
  | SIGUSR1
  deriving DecidableEq, Repr

/-- The signals passed to `signal.NotifyContext` at line 25
(`os.Interrupt` is `SIGINT`). -/
def notifiedSignals : List Signal := [Signal.SIGINT, Signal.SIGTERM]

/-- How a listener was obtained. -/
inductive ListenerSrc where
  | file (fd : Nat) (name : String)
  | tcp (network : String) (address : String)
  deriving DecidableEq, Repr

/-- A `net.Listener`: where it came from and the text of `l.Addr().String()`. -/
structure Listener where
  src : ListenerSrc
  addr : String
  deriving DecidableEq, Repr

/-- The part of the outside world consulted during listener setup: the process
environment, and what `net.FileListener` (on a descriptor number) and
`net.Listen` (on a network and address) answer: an error, or a listener whose
bound address has the given text. -/
structure World where
  environ : String → Option String
  FileListener : Nat → Except GoError String
  Listen : String → String → Except GoError String

/-- The value of `os.Getenv(key)`: the empty string when the variable is unset. -/
def Getenv (w : World) (key : String) : String :=
  (w.environ key).getD ""

/-- Calls observable from outside, in program order of the thread making them. -/
inductive Event where
  | NotifyContext (sigs : List Signal)
  | Getenv (key : String)
  | NewFile (fd : Nat) (name : String)
  | FileListener (fd : Nat)
  | Listen (network : String) (address : String)
  | Go
  | Println (line : String)
  | Serve (l : Listener)
  | ServeReturn (r : Option GoError)
  | Recv (v : Option GoError)
  | FileClose (fd : Nat)
  | Cancel
  | Return (r : Option GoError)
  | Shutdown (timeoutSeconds : Nat)
  | ShutdownReturn (r : Option GoError)
  | Send (v : Option GoError)
  | Close
  deriving DecidableEq, Repr

/-- Events of the coordinator goroutine (lines 48-56); all others belong to
the calling goroutine. -/
def Event.byCoord : Event → Bool
  | .Shutdown _ => true
  | .ShutdownReturn _ => true
  | .Send _ => true
  | .Close => true
  | _ => false

/-! ## Listener setup (lines 28-43) -/

/-- The address handed to `net.Listen` in the `else` branch (lines 35-39). -/
def bindAddr (w : World) (addr : String) : String :=
  if Getenv w "PORT" ≠ "" then ":" ++ Getenv w "PORT" else addr

/-- Lines 30-40: choose and obtain the listener.  Returns the calls made and
the pair `(l, err)` as an `Except`. -/
def setupListener (w : World) (addr : String) : List Event × Except GoError Listener :=
  if Getenv w "LISTEN_FDS" = "1" then
    ([Event.Getenv "LISTEN_FDS", Event.NewFile 3 "http", Event.FileListener 3],
      match w.FileListener 3 with
      | .ok a => .ok ⟨.file 3 "http", a⟩
      | .error e => .error e)
  else
    ([Event.Getenv "LISTEN_FDS", Event.Getenv "PORT", Event.Listen "tcp" (bindAddr w addr)],
      match w.Listen "tcp" (bindAddr w addr) with
      | .ok a => .ok ⟨.tcp "tcp" (bindAddr w addr), a⟩
      | .error e => .error e)

/-- The argument of `fmt.Println` at line 58. -/
def startupNotice (l : Listener) : String :=
  "Serving on http://" ++ l.addr ++ "/"

/-! ## Control state -/

/-- The `return` statement reached by the calling goroutine. -/
inductive RetSite where
  | line42 (e : GoError)
  | line61
  | line64 (e : GoError)
  | line66
  | line68 (e : GoError)
  deriving DecidableEq, Repr

/-- The value returned at each `return` statement. -/
def RetSite.result : RetSite → Option GoError
  | .line42 e => some (.Errorf "lands: error setting up listener: " e)
  | .line61 => none
  | .line64 e => some (.Errorf "lands: error shutting down: " e)
  | .line66 => none
  | .line68 e => some (.Errorf "lands: error serving: " e)

/-- Program counter of the calling goroutine. -/
inductive MainPc where
  /-- Function entry, line 24. -/
  | entry
  /-- Listener obtained, coordinator spawned; about to run line 58. -/
  | notice (l : Listener)
  /-- Blocked inside `hs.Serve(l)`, line 59. -/
  | serving (l : Listener)
  /-- At the channel receive `<-errShutdown`, line 63. -/
  | recv
  /-- A `return` statement was executed; the deferred calls are pending. -/
  | deferred (site : RetSite)
  /-- The deferred calls have run; control is not yet back at the caller. -/
  | exiting (site : RetSite)
  /-- The function has returned to its caller. -/
  | returned (site : RetSite)
  deriving DecidableEq, Repr

/-- Program counter of the coordinator goroutine (lines 48-56). -/
inductive CoordPc where
  /-- The `go` statement has not been executed. -/
  | notStarted
  /-- Blocked at `<-ctx.Done()`, line 50. -/
  | waitDone
  /-- Blocked inside `hs.Shutdown(shutdownCtx)`, line 53. -/
  | inShutdown
  /-- At the channel send `errShutdown <- err`, line 54. -/
  | send (e : GoError)
  /-- Body finished with Shutdown result `r`; deferred `close` pending. -/
  | closing (r : Option GoError)
  /-- Goroutine finished; Shutdown had returned `r`. -/
  | exited (r : Option GoError)
  deriving DecidableEq, Repr

/-- Whole-program state of one call. -/
structure State where
  main : MainPc
  coord : CoordPc
  /-- The caller's context has been cancelled. -/
  parentDone : Bool
  /-- A notified signal has been delivered. -/
  signalled : Bool
  /-- The stop function returned by `signal.NotifyContext` has been called. -/
  stopped : Bool
  /-- Buffer of `errShutdown` (capacity 1), oldest first. -/
  chanBuf : List (Option GoError)
  /-- Whether `errShutdown` has been closed. -/
  chanClosed : Bool
  trace : List Event
  deriving DecidableEq, Repr

/-- Capacity of `errShutdown`, line 47. -/
def chanCap : Nat := 1

/-- Timeout passed to `context.WithTimeout` at line 51, in seconds. -/
def shutdownTimeoutSeconds : Nat := 10

/-- Whether the context returned by `signal.NotifyContext` is done: the parent
is done, a notified signal arrived, or its stop function was called. -/
def State.ctxDone (s : State) : Bool :=
  s.parentDone || s.signalled || s.stopped

/-- State at function entry. -/
def State.init : State :=
  { main := .entry, coord := .notStarted, parentDone := false, signalled := false,
    stopped := false, chanBuf := [], chanClosed := false, trace := [] }

/-- Whether the signal handler installed at line 25 is in place. -/
def State.registered (s : State) : Bool :=
  match s.main with
  | .entry => false
  | .exiting _ => false
  | .returned _ => false
  | _ => true

/-- What can happen next. -/
inductive Label where
  /-- The caller cancels the context it passed in. -/
  | parentCancel
  /-- The OS delivers a signal to the process. -/
  | signal (sig : Signal)
  /-- The calling goroutine runs to its next blocking point. -/
  | main
  /-- The coordinator goroutine runs to its next blocking point. -/
  | coord
  /-- The call `hs.Serve(l)` returns `r`. -/
  | serveReturns (r : Option GoError)
  /-- The call `hs.Shutdown(shutdownCtx)` returns `r`. -/
  | shutdownReturns (r : Option GoError)
  deriving DecidableEq, Repr

/-- The deferred calls of the calling goroutine, run in reverse order of
registration: `f.Close()` (registered only in the `LISTEN_FDS` branch, line
32), then `cancel()` (line 26). -/
def deferredCalls (w : World) : List Event :=
  if Getenv w "LISTEN_FDS" = "1" then [Event.FileClose 3, Event.Cancel] else [Event.Cancel]

/-- One step of the calling goroutine. -/
def stepMain (w : World) (addr : String) (s : State) : Option State :=
  match s.main with
  | .entry =>
    -- lines 25-56: install the signal context, obtain the listener,
    -- and on success create the channel and start the coordinator
    match setupListener w addr with
    | (evs, .error e) =>
      some { s with main := .deferred (.line42 e),
                    trace := s.trace ++ Event.NotifyContext notifiedSignals :: evs }
    | (evs, .ok l) =>
      some { s with main := .notice l, coord := .waitDone,
                    trace := s.trace ++ Event.NotifyContext notifiedSignals :: evs ++ [Event.Go] }
  | .notice l =>
    -- lines 58-59: print the notice and enter Serve
    some { s with main := .serving l,
                  trace := s.trace ++ [Event.Println (startupNotice l), Event.Serve l] }
  | .serving _ => none
  | .recv =>
    -- line 63: receive from errShutdown
    match s.chanBuf with
    | v :: rest =>
      some { s with main := .deferred (match v with | some e => .line64 e | none => .line66),
                    chanBuf := rest, trace := s.trace ++ [Event.Recv v] }
    | [] =>
      if s.chanClosed then
        some { s with main := .deferred .line66, trace := s.trace ++ [Event.Recv none] }
      else none
  | .deferred site =>
    -- the deferred calls run, ending with cancel() of line 26
    some { s with main := .exiting site, stopped := true,
                  trace := s.trace ++ deferredCalls w }
  | .exiting site =>
    -- control goes back to the caller with the value of the return statement
    some { s with main := .returned site, trace := s.trace ++ [Event.Return site.result] }
  | .returned _ => none

/-- One step of the coordinator goroutine. -/
def stepCoord (s : State) : Option State :=
  match s.coord with
  | .notStarted => none
  | .waitDone =>
    -- lines 50-53: once the context is done, call Shutdown with a 10 s timeout
    if s.ctxDone then
      some { s with coord := .inShutdown,
                    trace := s.trace ++ [Event.Shutdown shutdownTimeoutSeconds] }
    else none
  | .inShutdown => none
  | .send e =>
    -- line 54
    if s.chanBuf.length < chanCap ∧ s.chanClosed = false then
      some { s with coord := .closing (some e), chanBuf := s.chanBuf ++ [some e],
                    trace := s.trace ++ [Event.Send (some e)] }
    else none
  | .closing r =>
    -- deferred calls: cancel of shutdownCtx (line 52), then close(errShutdown) (line 49)
    some { s with coord := .exited r, chanClosed := true, trace := s.trace ++ [Event.Close] }
  | .exited _ => none

/-- The transition function: the successor of `s` under a label, or `none`
when the label is not enabled in `s`. -/
def step (w : World) (addr : String) (lab : Label) (s : State) : Option State :=
  match lab with
  | .parentCancel => some { s with parentDone := true }
  | .signal sig =>
    if s.registered ∧ sig ∈ notifiedSignals then some { s with signalled := true } else none
  | .main => stepMain w addr s
  | .coord => stepCoord s
  | .serveReturns r =>
    match s.main with
    | .serving _ =>
      some { s with
        main := (match r with
          | none => .deferred .line61
          | some e => if e = GoError.ErrServerClosed then .recv else .deferred (.line68 e)),
        trace := s.trace ++ [Event.ServeReturn r] }
    | _ => none
  | .shutdownReturns r =>
    match s.coord with
    | .inShutdown =>
      some { s with
        coord := (match r with
          | none => .closing none
          | some e => .send e),
        trace := s.trace ++ [Event.ShutdownReturn r] }
    | _ => none

/-- Run a schedule from a state. -/
def run (w : World) (addr : String) : List Label → State → Option State
  | [], s => some s
  | lab :: rest, s => (step w addr lab s).bind (run w addr rest)

/-- The states of a call of `ListenAndServe(ctx, addr, handler)` in world `w`. -/
def Reachable (w : World) (addr : String) (s : State) : Prop :=
  ∃ sched, run w addr sched State.init = some s

/-! ## Observations -/

/-- The value the call returned to its caller, once it has returned. -/
def State.result (s : State) : Option (Option GoError) :=
  match s.main with
  | .returned site => some site.result
  | _ => none

/-- The value the call has returned after a schedule is run from a state:
`none` when the schedule cannot be run or the call has not returned by its end. -/
def resultAfter (w : World) (addr : String) (sched : List Label) (s : State) :
    Option (Option GoError) :=
  (run w addr sched s).bind State.result

/-- The state reached from function entry by a schedule (the entry state when
the schedule is not executable). -/
def stateAfter (w : World) (addr : String) (sched : List Label) : State :=
  (run w addr sched State.init).getD State.init

/-- The value returned after the receive at line 63, given what `hs.Shutdown`
returned (lines 63-66). -/
def shutdownOutcome : Option GoError → Option GoError
  | none => none
  | some e => some (GoError.Errorf "lands: error shutting down: " e)

/-- A schedule in which only the two goroutines of the call move: no signal, no
cancellation, no return of a blocking call. -/
def internalOnly (sched : List Label) : Prop :=
  ∀ lab ∈ sched, lab = Label.main ∨ lab = Label.coord

/-- A schedule in which only the coordinator goroutine moves. -/
def coordOnly (sched : List Label) : Prop :=
  ∀ lab ∈ sched, lab = Label.coord

/-! ## Event classes used in the statements -/

/-- Calls made only by listener setup. -/
def Event.isSetupCall : Event → Bool
  | .Getenv _ => true
  | .NewFile _ _ => true
  | .FileListener _ => true
  | .Listen _ _ => true
  | _ => false

/-- Calls that try to obtain a listener: `net.FileListener` and `net.Listen`. -/
def Event.isBind : Event → Bool
  | .FileListener _ => true
  | .Listen _ _ => true
  | _ => false

/-- Writes to standard output. -/
def Event.isPrintln : Event → Bool
  | .Println _ => true
  | _ => false

/-- Writes to standard output and calls of `hs.Serve`. -/
def Event.isPrintOrServe : Event → Bool
  | .Println _ => true
  | .Serve _ => true
  | _ => false

/-- Sends on `errShutdown`. -/
def Event.isSend : Event → Bool
  | .Send _ => true
  | _ => false

/-- Sends on and closes of `errShutdown`. -/
def Event.isChanWrite : Event → Bool
  | .Send _ => true
  | .Close => true
  | _ => false

/-- Returns of `hs.Shutdown` together with the sends on and closes of
`errShutdown`. -/
def Event.isCoordOutcome : Event → Bool
  | .ShutdownReturn _ => true
  | .Send _ => true
  | .Close => true
  | _ => false

/-- Calls of `hs.Shutdown`. -/
def Event.isShutdownCall : Event → Bool
  | .Shutdown _ => true
  | _ => false

/-! ## Per-thread logs and the invariant of reachable states -/

/-- The events of the calling goroutine in a trace, in order. -/
def mainEvents (tr : List Event) : List Event :=
  tr.filter (fun e => !e.byCoord)

/-- The events of the coordinator goroutine in a trace, in order. -/
def coordEvents (tr : List Event) : List Event :=
  tr.filter Event.byCoord

/-- Calls made by lines 25-40. -/
def setupLog (w : World) (addr : String) : List Event :=
  Event.NotifyContext notifiedSignals :: (setupListener w addr).1

/-- Calls made by the calling goroutine up to and including the call of
`hs.Serve` (when setup succeeded), or up to the failing setup call. -/
def servedLog (w : World) (addr : String) : List Event :=
  match (setupListener w addr).2 with
  | .ok l => setupLog w addr ++ [Event.Go, Event.Println (startupNotice l), Event.Serve l]
  | .error _ => setupLog w addr

/-- What the calling goroutine observed after entering `hs.Serve` on its way to
each `return` statement. -/
def siteLog : RetSite → List Event
  | .line42 _ => []
  | .line61 => [Event.ServeReturn none]
  | .line64 e => [Event.ServeReturn (some GoError.ErrServerClosed), Event.Recv (some e)]
  | .line66 => [Event.ServeReturn (some GoError.ErrServerClosed), Event.Recv none]
  | .line68 e => [Event.ServeReturn (some e)]

/-- What `hs.Serve` returned on the way to each `return` statement (`none` when
`hs.Serve` was never called). -/
def siteServe : RetSite → Option (Option GoError)
  | .line42 _ => none
  | .line61 => some none
  | .line64 _ => some (some GoError.ErrServerClosed)
  | .line66 => some (some GoError.ErrServerClosed)
  | .line68 e => some (some e)

/-- The calling goroutine's log at each program point. -/
def mainLog (w : World) (addr : String) : MainPc → List Event
  | .entry => []
  | .notice _ => setupLog w addr ++ [Event.Go]
  | .serving _ => servedLog w addr
  | .recv => servedLog w addr ++ [Event.ServeReturn (some GoError.ErrServerClosed)]
  | .deferred site => servedLog w addr ++ siteLog site
  | .exiting site => servedLog w addr ++ siteLog site ++ deferredCalls w
  | .returned site =>
    servedLog w addr ++ siteLog site ++ deferredCalls w ++ [Event.Return site.result]

/-- The coordinator's log at each program point. -/
def coordLog : CoordPc → List Event
  | .notStarted => []
  | .waitDone => []
  | .inShutdown => [Event.Shutdown shutdownTimeoutSeconds]
  | .send e => [Event.Shutdown shutdownTimeoutSeconds, Event.ShutdownReturn (some e)]
  | .closing none => [Event.Shutdown shutdownTimeoutSeconds, Event.ShutdownReturn none]
  | .closing (some e) =>
    [Event.Shutdown shutdownTimeoutSeconds, Event.ShutdownReturn (some e), Event.Send (some e)]
  | .exited none =>
    [Event.Shutdown shutdownTimeoutSeconds, Event.ShutdownReturn none, Event.Close]
  | .exited (some e) =>
    [Event.Shutdown shutdownTimeoutSeconds, Event.ShutdownReturn (some e), Event.Send (some e),
      Event.Close]

/-- Whether a `return` statement is consistent with the outcome of setup. -/
def siteOK (w : World) (addr : String) : RetSite → Prop
  | .line42 e => (setupListener w addr).2 = .error e
  | .line68 e => e ≠ GoError.ErrServerClosed ∧ ∃ l, (setupListener w addr).2 = .ok l
  | _ => ∃ l, (setupListener w addr).2 = .ok l

/-- Whether a program point is consistent with the outcome of setup. -/
def pcOK (w : World) (addr : String) : MainPc → Prop
  | .entry => True
  | .notice l => (setupListener w addr).2 = .ok l
  | .serving l => (setupListener w addr).2 = .ok l
  | .recv => ∃ l, (setupListener w addr).2 = .ok l
  | .deferred site => siteOK w addr site
  | .exiting site => siteOK w addr site
  | .returned site => siteOK w addr site

/-- The calling goroutine has not yet executed line 58. -/
def mainBeforeNotice : MainPc → Bool
  | .entry => true
  | .notice _ => true
  | _ => false

/-- The calling goroutine has completed the receive at line 63. -/
def mainReceived : MainPc → Bool
  | .deferred (.line64 _) => true
  | .deferred .line66 => true
  | .exiting (.line64 _) => true
  | .exiting .line66 => true
  | .returned (.line64 _) => true
  | .returned .line66 => true
  | _ => false

/-- The values the coordinator has sent on `errShutdown` so far. -/
def coordSent : CoordPc → List (Option GoError)
  | .closing (some e) => [some e]
  | .exited (some e) => [some e]
  | _ => []

/-- The coordinator has finished. -/
def coordExited : CoordPc → Bool
  | .exited _ => true
  | _ => false

/-- The coordinator has got past `<-ctx.Done()`. -/
def coordPastWait : CoordPc → Bool
  | .notStarted => false
  | .waitDone => false
  | _ => true

/-- The calling goroutine has not executed the `go` statement. -/
def mainNotSpawned : MainPc → Bool
  | .entry => true
  | .deferred (.line42 _) => true
  | .exiting (.line42 _) => true
  | .returned (.line42 _) => true
  | _ => false

/-- The calling goroutine has run its deferred calls, `cancel()` of line 26
among them. -/
def mainStopped : MainPc → Bool
  | .exiting _ => true
  | .returned _ => true
  | _ => false

/-- The value received at line 63 is what the coordinator left in the channel. -/
def recvLink : MainPc → CoordPc → Prop
  | .deferred (.line64 e), c => c = .closing (some e) ∨ c = .exited (some e)
  | .exiting (.line64 e), c => c = .closing (some e) ∨ c = .exited (some e)
  | .returned (.line64 e), c => c = .closing (some e) ∨ c = .exited (some e)
  | .deferred .line66, c => c = .exited none
  | .exiting .line66, c => c = .exited none
  | .returned .line66, c => c = .exited none
  | _, _ => True

/-- The invariant of reachable states. -/
structure Inv (w : World) (addr : String) (s : State) : Prop where
  mainLog : mainEvents s.trace = mainLog w addr s.main
  coordLog : coordEvents s.trace = coordLog s.coord
  pc : pcOK w addr s.main
  buf : s.chanBuf = if mainReceived s.main then [] else coordSent s.coord
  closed : s.chanClosed = coordExited s.coord
  link : recvLink s.main s.coord
  started : (s.coord = .notStarted) ↔ mainNotSpawned s.main = true
  done : coordPastWait s.coord = true → s.ctxDone = true
  stop : s.stopped = mainStopped s.main

/-! ## Concrete worlds and schedules -/

/-- A process started by socket activation: `LISTEN_FDS=1`, `PORT=8080`,
descriptor 3 is a socket listening on port 80. -/
def worldInherited : World :=
  { environ := fun k =>
      if k = "LISTEN_FDS" then some "1" else if k = "PORT" then some "8080" else none,
    FileListener := fun _ => .ok "[::]:80",
    Listen := fun _ a => .ok ("[::]" ++ a) }

/-- A process with `PORT=8080` and `LISTEN_FDS` unset; binding succeeds. -/
def worldPort : World :=
  { environ := fun k => if k = "PORT" then some "8080" else none,
    FileListener := fun _ => .error (.other "file file+net http: socket operation on non-socket"),
    Listen := fun _ a => .ok ("[::]" ++ a) }

/-- A process with neither variable set; binding succeeds and the kernel
picks the port. -/
def worldDefault : World :=
  { environ := fun _ => none,
    FileListener := fun _ => .error (.other "file file+net http: socket operation on non-socket"),
    Listen := fun _ _ => .ok "127.0.0.1:43017" }

/-- A process with neither variable set in which binding fails. -/
def worldBindFails : World :=
  { environ := fun _ => none,
    FileListener := fun _ => .error (.other "file file+net http: socket operation on non-socket"),
    Listen := fun _ _ => .error (.other "listen tcp :80: bind: permission denied") }

/-- A run in which the listener breaks while serving and the call returns. -/
def schedServeFails : List Label :=
  [Label.main, Label.main,
    Label.serveReturns (some (GoError.other "accept tcp [::]:8080: use of closed network connection")),
    Label.main, Label.main]

/-- A run in which `SIGTERM` arrives while serving and the graceful stop
succeeds. -/
def schedGraceful : List Label :=
  [Label.main, Label.main, Label.signal Signal.SIGTERM, Label.coord,
    Label.serveReturns (some GoError.ErrServerClosed), Label.shutdownReturns none,
    Label.coord, Label.main, Label.main, Label.main]

/-- A run in which `SIGTERM` arrives while serving, the serve loop stops with
`http.ErrServerClosed`, and `hs.Shutdown` gives up after its timeout. -/
def schedShutdownTimeout : List Label :=
  [Label.main, Label.main, Label.signal Signal.SIGTERM, Label.coord,
    Label.serveReturns (some GoError.ErrServerClosed),
    Label.shutdownReturns (some (GoError.other "context deadline exceeded")),
    Label.coord, Label.coord, Label.main, Label.main, Label.main]

/-- A run in which the listener breaks while serving (the serve loop fails
with an accept error), `SIGTERM` arrives before the calling goroutine has run
its `return`, and the graceful stop times out. -/
def schedServeFailsShutdownFails : List Label :=
  [Label.main, Label.main,
    Label.serveReturns (some (GoError.other "accept tcp [::]:8080: use of closed network connection")),
    Label.signal Signal.SIGTERM, Label.coord,
    Label.shutdownReturns (some (GoError.other "context deadline exceeded")),
    Label.coord, Label.coord, Label.main, Label.main]

/-- A run without any cancellation or signal: the listener breaks while
serving, the calling goroutine executes its `return` and runs its deferred
calls, and the coordinator, released by the deferred `cancel()`, calls
`hs.Shutdown` before control is back at the caller. -/
def schedServeFailsThenCancel : List Label :=
  [Label.main, Label.main,
    Label.serveReturns (some (GoError.other "accept tcp [::]:8080: use of closed network connection")),
    Label.main, Label.coord]

/-- A run in which the caller cancels its context twice and both notified
signals arrive, before and after the coordinator has started the graceful
stop. -/
def schedManySignals : List Label :=
  [Label.main, Label.main, Label.parentCancel, Label.signal Signal.SIGTERM, Label.coord,
    Label.signal Signal.SIGTERM, Label.signal Signal.SIGINT, Label.parentCancel,
    Label.serveReturns (some GoError.ErrServerClosed), Label.shutdownReturns none,
    Label.coord, Label.main, Label.main, Label.main]

/-! ## Splitting a trace by thread -/

theorem mainEvents_nil : mainEvents [] = [] := rfl

theorem coordEvents_nil : coordEvents [] = [] := rfl

theorem mainEvents_append (a b : List Event) :
    mainEvents (a ++ b) = mainEvents a ++ mainEvents b := by
  simp [mainEvents]

theorem coordEvents_append (a b : List Event) :
    coordEvents (a ++ b) = coordEvents a ++ coordEvents b := by
  simp [coordEvents]

theorem mainEvents_cons_main (e : Event) (l : List Event) (h : e.byCoord = false) :
    mainEvents (e :: l) = e :: mainEvents l := by
  simp [mainEvents, h]

theorem coordEvents_cons_main (e : Event) (l : List Event) (h : e.byCoord = false) :
    coordEvents (e :: l) = coordEvents l := by
  simp [coordEvents, h]

theorem mainEvents_cons_coord (e : Event) (l : List Event) (h : e.byCoord = true) :
    mainEvents (e :: l) = mainEvents l := by
  simp [mainEvents, h]

theorem coordEvents_cons_coord (e : Event) (l : List Event) (h : e.byCoord = true) :
    coordEvents (e :: l) = e :: coordEvents l := by
  simp [coordEvents, h]

theorem mainEvents_setup (w : World) (addr : String) :
    mainEvents (setupListener w addr).1 = (setupListener w addr).1 := by
  unfold setupListener mainEvents
  split <;> simp [Event.byCoord]

theorem coordEvents_setup (w : World) (addr : String) :
    coordEvents (setupListener w addr).1 = [] := by
  unfold setupListener coordEvents
  split <;> simp [Event.byCoord]

theorem mainEvents_deferredCalls (w : World) :
    mainEvents (deferredCalls w) = deferredCalls w := by
  unfold deferredCalls mainEvents
  split <;> simp [Event.byCoord]

theorem coordEvents_deferredCalls (w : World) :
    coordEvents (deferredCalls w) = [] := by
  unfold deferredCalls coordEvents
  split <;> simp [Event.byCoord]

theorem filter_eq_filter_mainEvents (p : Event → Bool) (hp : ∀ e, p e = true → e.byCoord = false)
    (tr : List Event) : tr.filter p = (mainEvents tr).filter p := by
  unfold mainEvents
  rw [List.filter_filter]
  apply List.filter_congr
  intro e _
  cases hpe : p e <;> simp [hpe]
  exact hp e hpe

theorem filter_eq_filter_coordEvents (p : Event → Bool) (hp : ∀ e, p e = true → e.byCoord = true)
    (tr : List Event) : tr.filter p = (coordEvents tr).filter p := by
  unfold coordEvents
  rw [List.filter_filter]
  apply List.filter_congr
  intro e _
  cases hpe : p e <;> simp [hpe]
  exact hp e hpe

/-! ## The invariant holds in every reachable state -/

theorem inv_init (w : World) (addr : String) : Inv w addr State.init := by
  constructor <;> simp [State.init, mainEvents, coordEvents, mainLog, coordLog, pcOK,
    mainReceived, coordSent, coordExited, recvLink, mainNotSpawned, coordPastWait, mainStopped]

set_option maxHeartbeats 1000000 in
theorem inv_stepMain {w : World} {addr : String} {s s' : State}
    (h : Inv w addr s) (hs : stepMain w addr s = some s') : Inv w addr s' := by
  obtain ⟨hm, hc, hpc, hbuf, hcl, hlink, hst, hdone, hstop⟩ := h
  obtain ⟨main, coord, pd, sg, st, buf, cl, tr⟩ := s
  simp only at hm hc hpc hbuf hcl hlink hst hdone hstop
  cases main with
  | entry =>
    simp only [stepMain] at hs
    have hcn : coord = .notStarted := hst.2 rfl
    subst hcn
    split at hs
    · rename_i evs e heq
      simp only [Option.some.injEq] at hs
      subst hs
      have h1 : (setupListener w addr).1 = evs := by rw [heq]
      have h2 : (setupListener w addr).2 = .error e := by rw [heq]
      have h3 := mainEvents_setup w addr
      have h4 := coordEvents_setup w addr
      rw [h1] at h3 h4
      constructor <;>
        simp_all [mainEvents_append, coordEvents_append, mainLog, coordLog, servedLog, setupLog,
          siteLog, pcOK, siteOK, mainReceived, coordSent, coordExited, recvLink, mainNotSpawned,
          coordPastWait, mainStopped, State.ctxDone, mainEvents_cons_main, coordEvents_cons_main,
          Event.byCoord, mainEvents_nil, coordEvents_nil]
    · rename_i evs l heq
      simp only [Option.some.injEq] at hs
      subst hs
      have h1 : (setupListener w addr).1 = evs := by rw [heq]
      have h2 : (setupListener w addr).2 = .ok l := by rw [heq]
      have h3 := mainEvents_setup w addr
      have h4 := coordEvents_setup w addr
      rw [h1] at h3 h4
      constructor <;>
        simp_all [mainEvents_append, coordEvents_append, mainLog, coordLog, servedLog, setupLog,
          siteLog, pcOK, siteOK, mainReceived, coordSent, coordExited, recvLink, mainNotSpawned,
          coordPastWait, mainStopped, State.ctxDone, mainEvents_cons_main, coordEvents_cons_main,
          Event.byCoord, mainEvents_nil, coordEvents_nil]
  | notice l => 
    simp only [stepMain, Option.some.injEq] at hs
    subst hs
    constructor <;>
        simp_all [mainEvents_append, coordEvents_append, mainLog, coordLog, servedLog, setupLog,
          siteLog, pcOK, siteOK, mainReceived, coordSent, coordExited, recvLink, mainNotSpawned,
          coordPastWait, mainStopped, State.ctxDone, mainEvents_cons_main, coordEvents_cons_main,
          Event.byCoord, mainEvents_nil, coordEvents_nil]
  | serving l => simp [stepMain] at hs
  | recv => 
    simp only [stepMain] at hs
    split at hs
    · rename_i v rest
      simp only [Option.some.injEq] at hs
      subst hs
      cases coord with
      | closing r => 
        cases r <;> cases v <;> constructor <;>
        simp_all [mainEvents_append, coordEvents_append, mainLog, coordLog, servedLog, setupLog,
          siteLog, pcOK, siteOK, mainReceived, coordSent, coordExited, recvLink, mainNotSpawned,
          coordPastWait, mainStopped, State.ctxDone, mainEvents_cons_main, coordEvents_cons_main,
          Event.byCoord, mainEvents_nil, coordEvents_nil]
      | exited r => 
        cases r <;> cases v <;> constructor <;>
        simp_all [mainEvents_append, coordEvents_append, mainLog, coordLog, servedLog, setupLog,
          siteLog, pcOK, siteOK, mainReceived, coordSent, coordExited, recvLink, mainNotSpawned,
          coordPastWait, mainStopped, State.ctxDone, mainEvents_cons_main, coordEvents_cons_main,
          Event.byCoord, mainEvents_nil, coordEvents_nil]
      | _ => simp_all [mainReceived, coordSent]
    · split at hs
      · simp only [Option.some.injEq] at hs
        subst hs
        cases coord with
        | exited r => 
          cases r <;> constructor <;>
          simp_all [mainEvents_append, coordEvents_append, mainLog, coordLog, servedLog, setupLog,
            siteLog, pcOK, siteOK, mainReceived, coordSent, coordExited, recvLink, mainNotSpawned,
            coordPastWait, mainStopped, State.ctxDone, mainEvents_cons_main, coordEvents_cons_main,
            Event.byCoord, mainEvents_nil, coordEvents_nil]
        | _ => simp_all [coordExited]
      · simp at hs
  | deferred site =>
    simp only [stepMain, Option.some.injEq] at hs
    subst hs
    cases site <;> constructor <;>
        simp_all [mainEvents_append, coordEvents_append, mainLog, coordLog, servedLog, setupLog,
          siteLog, pcOK, siteOK, mainReceived, coordSent, coordExited, recvLink, mainNotSpawned,
          coordPastWait, mainStopped, State.ctxDone, mainEvents_cons_main, coordEvents_cons_main,
          Event.byCoord, mainEvents_nil, coordEvents_nil, mainEvents_deferredCalls,
          coordEvents_deferredCalls]
  | exiting site =>
    simp only [stepMain, Option.some.injEq] at hs
    subst hs
    cases site <;> constructor <;>
        simp_all [mainEvents_append, coordEvents_append, mainLog, coordLog, servedLog, setupLog,
          siteLog, pcOK, siteOK, mainReceived, coordSent, coordExited, recvLink, mainNotSpawned,
          coordPastWait, mainStopped, State.ctxDone, mainEvents_cons_main, coordEvents_cons_main,
          Event.byCoord, mainEvents_nil, coordEvents_nil, mainEvents_deferredCalls,
          coordEvents_deferredCalls]
  | returned site => simp [stepMain] at hs

set_option maxHeartbeats 1000000 in
theorem inv_stepCoord {w : World} {addr : String} {s s' : State}
    (h : Inv w addr s) (hs : stepCoord s = some s') : Inv w addr s' := by
  obtain ⟨hm, hc, hpc, hbuf, hcl, hlink, hst, hdone, hstop⟩ := h
  obtain ⟨main, coord, pd, sg, st, buf, cl, tr⟩ := s
  simp only at hm hc hpc hbuf hcl hlink hst hdone hstop
  cases coord with
  | notStarted => simp [stepCoord] at hs
  | waitDone =>
    simp only [stepCoord] at hs
    split at hs
    · simp only [Option.some.injEq] at hs
      subst hs
      rcases main with _ | _ | _ | _ | site | site | site <;> try rcases site with _ | _ | _ | _ | _
      all_goals constructor <;>
        simp_all [mainEvents_append, coordEvents_append, mainLog, coordLog, servedLog, setupLog,
          siteLog, pcOK, siteOK, mainReceived, coordSent, coordExited, recvLink, mainNotSpawned,
          coordPastWait, mainStopped, State.ctxDone, mainEvents_cons_main, coordEvents_cons_main,
          Event.byCoord, mainEvents_nil, coordEvents_nil,
          mainEvents_cons_coord, coordEvents_cons_coord]
    · simp at hs
  | inShutdown => simp [stepCoord] at hs
  | send e =>
    simp only [stepCoord] at hs
    split at hs
    · simp only [Option.some.injEq] at hs
      subst hs
      rcases main with _ | _ | _ | _ | site | site | site <;> try rcases site with _ | _ | _ | _ | _
      all_goals constructor <;>
        simp_all [mainEvents_append, coordEvents_append, mainLog, coordLog, servedLog, setupLog,
          siteLog, pcOK, siteOK, mainReceived, coordSent, coordExited, recvLink, mainNotSpawned,
          coordPastWait, mainStopped, State.ctxDone, mainEvents_cons_main, coordEvents_cons_main,
          Event.byCoord, mainEvents_nil, coordEvents_nil,
          mainEvents_cons_coord, coordEvents_cons_coord]
    · simp at hs
  | closing r =>
    simp only [stepCoord, Option.some.injEq] at hs
    subst hs
    rcases main with _ | _ | _ | _ | site | site | site <;> try rcases site with _ | _ | _ | _ | _
    all_goals cases r <;> constructor <;>
        simp_all [mainEvents_append, coordEvents_append, mainLog, coordLog, servedLog, setupLog,
          siteLog, pcOK, siteOK, mainReceived, coordSent, coordExited, recvLink, mainNotSpawned,
          coordPastWait, mainStopped, State.ctxDone, mainEvents_cons_main, coordEvents_cons_main,
          Event.byCoord, mainEvents_nil, coordEvents_nil,
          mainEvents_cons_coord, coordEvents_cons_coord]
  | exited r => simp [stepCoord] at hs

set_option maxHeartbeats 1000000 in
theorem inv_step {w : World} {addr : String} {lab : Label} {s s' : State}
    (h : Inv w addr s) (hs : step w addr lab s = some s') : Inv w addr s' := by
  cases lab with
  | main => exact inv_stepMain h hs
  | coord => exact inv_stepCoord h hs
  | parentCancel =>
    obtain ⟨hm, hc, hpc, hbuf, hcl, hlink, hst, hdone, hstop⟩ := h
    simp only [step, Option.some.injEq] at hs
    subst hs
    constructor <;> simp_all [State.ctxDone]
  | signal sig =>
    obtain ⟨hm, hc, hpc, hbuf, hcl, hlink, hst, hdone, hstop⟩ := h
    simp only [step] at hs
    split at hs
    · simp only [Option.some.injEq] at hs
      subst hs
      constructor <;> simp_all [State.ctxDone]
    · simp at hs
  | serveReturns r =>
    obtain ⟨hm, hc, hpc, hbuf, hcl, hlink, hst, hdone, hstop⟩ := h
    obtain ⟨main, coord, pd, sg, st, buf, cl, tr⟩ := s
    simp only at hm hc hpc hbuf hcl hlink hst hdone hstop
    simp only [step] at hs
    split at hs
    · simp only [Option.some.injEq] at hs
      subst hs
      rcases r with _ | e
      · constructor <;>
        simp_all [mainEvents_append, coordEvents_append, mainLog, coordLog, servedLog, setupLog,
          siteLog, pcOK, siteOK, mainReceived, coordSent, coordExited, recvLink, mainNotSpawned,
          coordPastWait, mainStopped, State.ctxDone, mainEvents_cons_main, coordEvents_cons_main,
          Event.byCoord, mainEvents_nil, coordEvents_nil,
          mainEvents_cons_coord, coordEvents_cons_coord]
      · by_cases he : e = GoError.ErrServerClosed
        · constructor <;>
          simp_all [mainEvents_append, coordEvents_append, mainLog, coordLog, servedLog, setupLog,
            siteLog, pcOK, siteOK, mainReceived, coordSent, coordExited, recvLink, mainNotSpawned,
            coordPastWait, mainStopped, State.ctxDone, mainEvents_cons_main, coordEvents_cons_main,
            Event.byCoord, mainEvents_nil, coordEvents_nil,
          mainEvents_cons_coord, coordEvents_cons_coord]
        · constructor <;>
          simp_all [mainEvents_append, coordEvents_append, mainLog, coordLog, servedLog, setupLog,
            siteLog, pcOK, siteOK, mainReceived, coordSent, coordExited, recvLink, mainNotSpawned,
            coordPastWait, mainStopped, State.ctxDone, mainEvents_cons_main, coordEvents_cons_main,
            Event.byCoord, mainEvents_nil, coordEvents_nil,
          mainEvents_cons_coord, coordEvents_cons_coord]
    · simp at hs
  | shutdownReturns r =>
    obtain ⟨hm, hc, hpc, hbuf, hcl, hlink, hst, hdone, hstop⟩ := h
    obtain ⟨main, coord, pd, sg, st, buf, cl, tr⟩ := s
    simp only at hm hc hpc hbuf hcl hlink hst hdone hstop
    simp only [step] at hs
    split at hs
    · simp only [Option.some.injEq] at hs
      subst hs
      rcases main with _ | _ | _ | _ | site | site | site <;> try rcases site with _ | _ | _ | _ | _
      all_goals cases r <;> constructor <;>
        simp_all [mainEvents_append, coordEvents_append, mainLog, coordLog, servedLog, setupLog,
          siteLog, pcOK, siteOK, mainReceived, coordSent, coordExited, recvLink, mainNotSpawned,
          coordPastWait, mainStopped, State.ctxDone, mainEvents_cons_main, coordEvents_cons_main,
          Event.byCoord, mainEvents_nil, coordEvents_nil,
          mainEvents_cons_coord, coordEvents_cons_coord]
    · simp at hs

theorem inv_run {w : World} {addr : String} (sched : List Label) :
    ∀ {s s' : State}, Inv w addr s → run w addr sched s = some s' → Inv w addr s' := by
  induction sched with
  | nil =>
    intro s s' h hr
    simp only [run, Option.some.injEq] at hr
    exact hr ▸ h
  | cons lab rest ih =>
    intro s s' h hr
    simp only [run] at hr
    cases hstep : step w addr lab s with
    | none => simp [hstep] at hr
    | some t =>
      rw [hstep] at hr
      exact ih (inv_step h hstep) hr

theorem inv_reachable {w : World} {addr : String} {s : State} (h : Reachable w addr s) :
    Inv w addr s := by
  obtain ⟨sched, hr⟩ := h
  exact inv_run sched (inv_init w addr) hr

/-! ## Reading the trace off the program counters -/

theorem mem_trace_iff_mainLog {w : World} {addr : String} {s : State} (h : Inv w addr s)
    (e : Event) (he : e.byCoord = false) : e ∈ s.trace ↔ e ∈ mainLog w addr s.main := by
  rw [← h.mainLog]
  simp [mainEvents, he]

theorem mem_trace_iff_coordLog {w : World} {addr : String} {s : State} (h : Inv w addr s)
    (e : Event) (he : e.byCoord = true) : e ∈ s.trace ↔ e ∈ coordLog s.coord := by
  rw [← h.coordLog]
  simp [coordEvents, he]

theorem filter_trace_coordLog {w : World} {addr : String} {s : State} (h : Inv w addr s)
    (p : Event → Bool) (hp : ∀ e, p e = true → e.byCoord = true) :
    s.trace.filter p = (coordLog s.coord).filter p := by
  rw [filter_eq_filter_coordEvents p hp, h.coordLog]

theorem not_mem_setup (w : World) (addr : String) (e : Event) (he : e.isSetupCall = false) :
    e ∉ (setupListener w addr).1 := by
  unfold setupListener
  split <;> cases e <;> simp [Event.isSetupCall] at he ⊢

theorem not_mem_deferredCalls (w : World) (e : Event) (h1 : e ≠ Event.FileClose 3)
    (h2 : e ≠ Event.Cancel) : e ∉ deferredCalls w := by
  unfold deferredCalls
  split <;> simp [h1, h2]

theorem filter_setup_nil (w : World) (addr : String) (p : Event → Bool)
    (hp : ∀ e, e.isSetupCall = true → p e = false) :
    (setupListener w addr).1.filter p = [] := by
  rw [List.filter_eq_nil_iff]
  intro e he
  have h1 : e.isSetupCall = true := by
    by_contra hne
    exact not_mem_setup w addr e (by simpa using hne) he
  simp [hp e h1]

theorem filter_deferredCalls_nil (w : World) (p : Event → Bool)
    (h1 : p (Event.FileClose 3) = false) (h2 : p Event.Cancel = false) :
    (deferredCalls w).filter p = [] := by
  unfold deferredCalls
  split <;> simp [h1, h2]

theorem setup_bind_length (w : World) (addr : String) :
    ((setupListener w addr).1.filter Event.isBind).length = 1 := by
  unfold setupListener
  split <;> simp [Event.isBind]

theorem setupCall_mem_mainLog (w : World) (addr : String) (pc : MainPc) (e : Event)
    (hpc : pc ≠ .entry) (he : e.isSetupCall = true) :
    e ∈ mainLog w addr pc ↔ e ∈ (setupListener w addr).1 := by
  cases pc with
  | entry => exact absurd rfl hpc
  | notice l => cases e <;> simp [Event.isSetupCall] at he <;> simp [mainLog, setupLog]
  | serving l =>
    cases e <;> simp [Event.isSetupCall] at he <;> simp only [mainLog, servedLog] <;> split <;>
      simp [setupLog]
  | recv =>
    cases e <;> simp [Event.isSetupCall] at he <;> simp only [mainLog, servedLog] <;> split <;>
      simp [setupLog]
  | deferred site =>
    cases e <;> simp [Event.isSetupCall] at he <;> simp only [mainLog, servedLog] <;> split <;>
      cases site <;> simp [setupLog, siteLog]
  | exiting site =>
    cases e <;> simp [Event.isSetupCall] at he <;> simp only [mainLog, servedLog, deferredCalls] <;>
      split <;> cases site <;> simp [setupLog, siteLog] <;> split <;> simp
  | returned site =>
    cases e <;> simp [Event.isSetupCall] at he <;> simp only [mainLog, servedLog, deferredCalls] <;>
      split <;> cases site <;> simp [setupLog, siteLog] <;> split <;> simp

theorem setupCall_mem_trace {w : World} {addr : String} {s : State} (h : Inv w addr s)
    (hpc : s.main ≠ .entry) (e : Event) (he : e.isSetupCall = true) :
    e ∈ s.trace ↔ e ∈ (setupListener w addr).1 := by
  have hb : e.byCoord = false := by cases e <;> simp [Event.isSetupCall] at he <;> rfl
  rw [mem_trace_iff_mainLog h e hb]
  exact setupCall_mem_mainLog w addr s.main e hpc he

theorem bind_filter_mainLog (w : World) (addr : String) (pc : MainPc) (hpc : pc ≠ .entry) :
    (mainLog w addr pc).filter Event.isBind = (setupListener w addr).1.filter Event.isBind := by
  cases pc with
  | entry => exact absurd rfl hpc
  | notice l => simp [mainLog, setupLog, List.filter_cons, Event.isBind]
  | serving l =>
    simp only [mainLog, servedLog]
    split <;> simp [setupLog, List.filter_cons, Event.isBind]
  | recv =>
    simp only [mainLog, servedLog]
    split <;> simp [setupLog, List.filter_cons, Event.isBind]
  | deferred site =>
    simp only [mainLog, servedLog]
    split <;> cases site <;> simp [setupLog, siteLog, List.filter_cons, Event.isBind]
  | exiting site =>
    simp only [mainLog, servedLog, deferredCalls]
    split <;> cases site <;> simp [setupLog, siteLog, List.filter_cons, Event.isBind] <;>
      split <;> simp [Event.isBind]
  | returned site =>
    simp only [mainLog, servedLog, deferredCalls]
    split <;> cases site <;> simp [setupLog, siteLog, List.filter_cons, Event.isBind] <;>
      split <;> simp [Event.isBind]

theorem bind_filter_trace {w : World} {addr : String} {s : State} (h : Inv w addr s)
    (hpc : s.main ≠ .entry) :
    s.trace.filter Event.isBind = (setupListener w addr).1.filter Event.isBind := by
  rw [filter_eq_filter_mainEvents Event.isBind (by intro e he; cases e <;> simp_all [Event.isBind, Event.byCoord]),
    h.mainLog]
  exact bind_filter_mainLog w addr s.main hpc

theorem printOrServe_filter_mainLog (w : World) (addr : String) (l : Listener) (pc : MainPc)
    (hl : (setupListener w addr).2 = .ok l) :
    (mainLog w addr pc).filter Event.isPrintOrServe =
      if mainBeforeNotice pc then [] else [Event.Println (startupNotice l), Event.Serve l] := by
  have h1 := filter_setup_nil w addr Event.isPrintOrServe
    (by intro e he; cases e <;> simp_all [Event.isSetupCall, Event.isPrintOrServe])
  have h2 := filter_deferredCalls_nil w Event.isPrintOrServe rfl rfl
  rcases pc with _ | _ | _ | _ | site | site | site <;> try rcases site with _ | _ | _ | _ | _
  all_goals
    simp [mainLog, servedLog, hl, setupLog, siteLog, mainBeforeNotice, List.filter_cons, h1, h2,
      Event.isPrintOrServe]

theorem serveClosed_mem_mainLog {w : World} {addr : String} {site : RetSite}
    (hok : siteOK w addr site)
    (h : Event.ServeReturn (some GoError.ErrServerClosed) ∈ mainLog w addr (.returned site)) :
    (∃ e, site = .line64 e) ∨ site = .line66 := by
  have h1 := not_mem_setup w addr (Event.ServeReturn (some GoError.ErrServerClosed)) rfl
  have h2 := not_mem_deferredCalls w (Event.ServeReturn (some GoError.ErrServerClosed))
    (by simp) (by simp)
  rcases site with e | _ | e | _ | e
  · simp only [siteOK] at hok
    simp [mainLog, servedLog, hok, setupLog, siteLog, h1, h2] at h
  · obtain ⟨l, hl⟩ := hok
    simp [mainLog, servedLog, hl, setupLog, siteLog, h1, h2] at h
  · exact Or.inl ⟨e, rfl⟩
  · exact Or.inr rfl
  · obtain ⟨hne, l, hl⟩ := hok
    simp [mainLog, servedLog, hl, setupLog, siteLog, h1, h2] at h
    exact absurd h.symm hne

theorem serveReturn_mem_mainLog {w : World} {addr : String} {pc : MainPc} {e : GoError}
    (hok : pcOK w addr pc) (hne : e ≠ GoError.ErrServerClosed)
    (h : Event.ServeReturn (some e) ∈ mainLog w addr pc) :
    pc = .deferred (.line68 e) ∨ pc = .exiting (.line68 e) ∨ pc = .returned (.line68 e) := by
  have h1 := not_mem_setup w addr (Event.ServeReturn (some e)) rfl
  have h2 := not_mem_deferredCalls w (Event.ServeReturn (some e)) (by simp) (by simp)
  rcases pc with _ | l | l | _ | site | site | site <;> try rcases site with e' | _ | e' | _ | e'
  all_goals simp only [pcOK, siteOK] at hok
  all_goals try obtain ⟨hne', l, hl⟩ := hok
  all_goals try obtain ⟨l, hl⟩ := hok
  all_goals simp_all [mainLog, servedLog, setupLog, siteLog]

theorem serveReturn_mem_returned {w : World} {addr : String} {site : RetSite}
    (hok : siteOK w addr site) (r : Option GoError) :
    Event.ServeReturn r ∈ mainLog w addr (.returned site) ↔ siteServe site = some r := by
  have h1 := not_mem_setup w addr (Event.ServeReturn r) rfl
  have h2 := not_mem_deferredCalls w (Event.ServeReturn r) (by simp) (by simp)
  rcases site with e' | _ | e' | _ | e'
  all_goals simp only [siteOK] at hok
  all_goals try obtain ⟨hne', l, hl⟩ := hok
  all_goals try obtain ⟨l, hl⟩ := hok
  all_goals simp_all [mainLog, servedLog, setupLog, siteLog, siteServe]
  all_goals exact eq_comm

theorem recv_not_mem_mainLog (w : World) (addr : String) (e : GoError) (v : Option GoError) :
    Event.Recv v ∉ mainLog w addr (.deferred (.line68 e)) ∧
    Event.Recv v ∉ mainLog w addr (.exiting (.line68 e)) ∧
    Event.Recv v ∉ mainLog w addr (.returned (.line68 e)) := by
  have h1 := not_mem_setup w addr (Event.Recv v) rfl
  have h2 := not_mem_deferredCalls w (Event.Recv v) (by simp) (by simp)
  refine ⟨?_, ?_, ?_⟩ <;> simp only [mainLog, servedLog] <;> split <;>
    simp [setupLog, siteLog, h1, h2]

theorem shutdownReturn_mem_coordLog (c : CoordPc) (r : Option GoError) :
    Event.ShutdownReturn r ∈ coordLog c ↔
      (∃ e, c = .send e ∧ r = some e) ∨ c = .closing r ∨ c = .exited r := by
  rcases c with _ | _ | _ | e | r' | r' <;> try rcases r' with _ | e'
  all_goals simp [coordLog]
  all_goals exact eq_comm

theorem shutdown_mem_coordLog (c : CoordPc) (n : Nat) :
    Event.Shutdown n ∈ coordLog c ↔ coordPastWait c = true ∧ n = shutdownTimeoutSeconds := by
  rcases c with _ | _ | _ | e | r | r <;> try rcases r with _ | e
  all_goals simp [coordLog, coordPastWait]

theorem recv_not_mem_of_serveReturn {w : World} {addr : String} {pc : MainPc}
    {r : Option GoError} (hok : pcOK w addr pc) (hne : r ≠ some GoError.ErrServerClosed)
    (h : Event.ServeReturn r ∈ mainLog w addr pc) (v : Option GoError) :
    Event.Recv v ∉ mainLog w addr pc := by
  have h1 := not_mem_setup w addr (Event.ServeReturn r) rfl
  have h2 := not_mem_deferredCalls w (Event.ServeReturn r) (by simp) (by simp)
  have h3 := not_mem_setup w addr (Event.Recv v) rfl
  have h4 := not_mem_deferredCalls w (Event.Recv v) (by simp) (by simp)
  rcases pc with _ | l | l | _ | site | site | site <;> try rcases site with e' | _ | e' | _ | e'
  all_goals simp only [pcOK, siteOK] at hok
  all_goals try obtain ⟨hne', l', hl⟩ := hok
  all_goals try obtain ⟨l', hl⟩ := hok
  all_goals simp_all [mainLog, servedLog, setupLog, siteLog]

theorem cancel_mem_deferredCalls (w : World) : Event.Cancel ∈ deferredCalls w := by
  unfold deferredCalls
  split <;> simp

theorem cancel_mem_mainLog (w : World) (addr : String) (pc : MainPc) (hok : pcOK w addr pc) :
    Event.Cancel ∈ mainLog w addr pc ↔ mainStopped pc = true := by
  have h1 := not_mem_setup w addr Event.Cancel rfl
  have h2 := cancel_mem_deferredCalls w
  rcases pc with _ | l | l | _ | site | site | site <;> try rcases site with e' | _ | e' | _ | e'
  all_goals simp only [pcOK, siteOK] at hok
  all_goals try obtain ⟨hne', l', hl⟩ := hok
  all_goals try obtain ⟨l', hl⟩ := hok
  all_goals simp_all [mainLog, servedLog, setupLog, siteLog, mainStopped]

theorem mainReceived_of_send (m : MainPc) (e : GoError) (h : recvLink m (.send e)) :
    mainReceived m = false := by
  rcases m with _ | _ | _ | _ | site | site | site <;> try rcases site with _ | _ | _ | _ | _
  all_goals simp_all [mainReceived, recvLink]

/-! ## Listener selection -/

/-- C1: in every state of a call past listener setup, the trace contains the
calls `os.NewFile(3, "http")` and `net.FileListener` on descriptor 3 and no call
of `net.Listen` if and only if `os.Getenv("LISTEN_FDS")` is exactly `"1"`,
whatever `PORT` and the default address are; for any other value no file is
opened or wrapped and `net.Listen("tcp", _)` is called instead.  The listener
that setup yields is the one from descriptor 3 exactly when `LISTEN_FDS` is
`"1"` and the TCP one otherwise.  Unset, `""`, `"0"`, `"2"`, `"01"` and `" 1"`
all count as "other". -/
theorem C1_inherited_iff_listen_fds (w : World) (addr : String) (s : State)
    (h : Reachable w addr s) (hpc : s.main ≠ .entry) :
    ((Event.NewFile 3 "http" ∈ s.trace ∧ Event.FileListener 3 ∈ s.trace ∧
        ∀ n a, Event.Listen n a ∉ s.trace) ↔ Getenv w "LISTEN_FDS" = "1") ∧
    (Getenv w "LISTEN_FDS" ≠ "1" →
      (∀ fd name, Event.NewFile fd name ∉ s.trace) ∧ (∀ fd, Event.FileListener fd ∉ s.trace) ∧
      Event.Listen "tcp" (bindAddr w addr) ∈ s.trace) ∧
    (∀ l, (setupListener w addr).2 = .ok l →
      (l.src = .file 3 "http" ↔ Getenv w "LISTEN_FDS" = "1") ∧
      (l.src = .tcp "tcp" (bindAddr w addr) ↔ Getenv w "LISTEN_FDS" ≠ "1")) ∧
    (∀ v ∈ [none, some "", some "0", some "2", some "01", some " 1"],
      w.environ "LISTEN_FDS" = v → Getenv w "LISTEN_FDS" ≠ "1") := by
  have hinv := inv_reachable h
  have hmem := fun e he => setupCall_mem_trace hinv hpc e he
  refine ⟨?_, ?_, ?_, ?_⟩
  · rw [hmem (Event.NewFile 3 "http") rfl, hmem (Event.FileListener 3) rfl]
    constructor
    · rintro ⟨h1, -, -⟩
      by_contra hne
      simp [setupListener, hne] at h1
    · intro h1
      refine ⟨by simp [setupListener, h1], by simp [setupListener, h1], ?_⟩
      intro n a
      rw [hmem (Event.Listen n a) rfl]
      simp [setupListener, h1]
  · intro hne
    refine ⟨?_, ?_, ?_⟩
    · intro fd name
      rw [hmem (Event.NewFile fd name) rfl]
      simp [setupListener, hne]
    · intro fd
      rw [hmem (Event.FileListener fd) rfl]
      simp [setupListener, hne]
    · rw [hmem (Event.Listen "tcp" (bindAddr w addr)) rfl]
      simp [setupListener, hne]
  · intro l hl
    unfold setupListener at hl
    split at hl
    · rename_i h1
      simp only at hl
      split at hl
      · simp only [Except.ok.injEq] at hl
        subst hl
        simp [h1]
      · simp at hl
    · rename_i h1
      simp only at hl
      split at hl
      · simp only [Except.ok.injEq] at hl
        subst hl
        simp [h1]
      · simp at hl
  · intro v hv hw
    have key : ∀ u ∈ [none, some "", some "0", some "2", some "01", some " 1"],
        Option.getD u "" ≠ "1" := by decide
    simpa [Getenv, hw] using key v hv

/-- C1 at a socket-activated process with `PORT=8080` set as well. -/
theorem C1_witness :
    Reachable worldInherited "localhost:0" (stateAfter worldInherited "localhost:0" [Label.main]) ∧
    Getenv worldInherited "LISTEN_FDS" = "1" ∧
    Event.FileListener 3 ∈ (stateAfter worldInherited "localhost:0" [Label.main]).trace ∧
    ∀ n a, Event.Listen n a ∉ (stateAfter worldInherited "localhost:0" [Label.main]).trace :=
  ⟨⟨[Label.main], rfl⟩, rfl,
    ((C1_inherited_iff_listen_fds worldInherited "localhost:0" _ ⟨[Label.main], rfl⟩
      (by decide)).1.2 rfl).2⟩

/-- C2: when `LISTEN_FDS` is not `"1"` and `PORT` has the non-empty value `p`,
the only call that obtains a listener in any state past setup is
`net.Listen("tcp", ":" ++ p)`, the listener in use is the one bound there, and
neither the address nor the outcome of setup depends on the default address. -/
theorem C2_port_overrides_addr (w : World) (addr p : String) (s : State)
    (hp : Getenv w "PORT" = p) (hne : p ≠ "") (hfds : Getenv w "LISTEN_FDS" ≠ "1")
    (h : Reachable w addr s) (hpc : s.main ≠ .entry) :
    s.trace.filter Event.isBind = [Event.Listen "tcp" (":" ++ p)] ∧
    (∀ l, (setupListener w addr).2 = .ok l → l.src = .tcp "tcp" (":" ++ p)) ∧
    (∀ addr', bindAddr w addr' = ":" ++ p ∧ setupListener w addr' = setupListener w addr) := by
  have hb : ∀ a, bindAddr w a = ":" ++ p := by
    intro a
    simp [bindAddr, hp, hne]
  refine ⟨?_, ?_, ?_⟩
  · rw [bind_filter_trace (inv_reachable h) hpc]
    simp [setupListener, hfds, hb, Event.isBind]
  · intro l hl
    simp only [setupListener, hfds, if_false, hb] at hl
    split at hl
    · simp only [Except.ok.injEq] at hl
      subst hl
      rfl
    · simp at hl
  · intro addr'
    refine ⟨hb addr', ?_⟩
    simp [setupListener, hfds, hb]

/-- C2 at `PORT=8080` with default address `localhost:9999`. -/
theorem C2_witness :
    (stateAfter worldPort "localhost:9999" [Label.main, Label.main]).trace.filter Event.isBind =
      [Event.Listen "tcp" ":8080"] ∧
    (stateAfter worldPort "localhost:9999" [Label.main, Label.main]).main =
      MainPc.serving ⟨ListenerSrc.tcp "tcp" ":8080", "[::]:8080"⟩ :=
  ⟨(C2_port_overrides_addr worldPort "localhost:9999" "8080" _ rfl (by decide) (by decide)
      ⟨[Label.main, Label.main], rfl⟩ (by decide)).1, rfl⟩

/-- C3: when `LISTEN_FDS` is not `"1"` and `PORT` is unset or empty, the only
call that obtains a listener in any state past setup is
`net.Listen("tcp", addr)` with the default address unchanged, and the listener
in use is the one bound there. -/
theorem C3_default_addr (w : World) (addr : String) (s : State)
    (hp : w.environ "PORT" = none ∨ w.environ "PORT" = some "")
    (hfds : Getenv w "LISTEN_FDS" ≠ "1")
    (h : Reachable w addr s) (hpc : s.main ≠ .entry) :
    s.trace.filter Event.isBind = [Event.Listen "tcp" addr] ∧
    (∀ l, (setupListener w addr).2 = .ok l → l.src = .tcp "tcp" addr) := by
  have hport : Getenv w "PORT" = "" := by
    rcases hp with hp | hp <;> simp [Getenv, hp]
  have hb : bindAddr w addr = addr := by
    simp [bindAddr, hport]
  refine ⟨?_, ?_⟩
  · rw [bind_filter_trace (inv_reachable h) hpc]
    simp [setupListener, hfds, hb, Event.isBind]
  · intro l hl
    simp only [setupListener, hfds, if_false, hb] at hl
    split at hl
    · simp only [Except.ok.injEq] at hl
      subst hl
      rfl
    · simp at hl

/-- C3 at an empty environment with default address `localhost:0`. -/
theorem C3_witness :
    (stateAfter worldDefault "localhost:0" [Label.main, Label.main]).trace.filter Event.isBind =
      [Event.Listen "tcp" "localhost:0"] ∧
    (stateAfter worldDefault "localhost:0" [Label.main, Label.main]).main =
      MainPc.serving ⟨ListenerSrc.tcp "tcp" "localhost:0", "127.0.0.1:43017"⟩ :=
  ⟨(C3_default_addr worldDefault "localhost:0" _ (Or.inl rfl) (by decide)
      ⟨[Label.main, Label.main], rfl⟩ (by decide)).1, rfl⟩

/-! ## Listener setup failure -/

/-- C4: when the call that obtains the listener fails with `e`, the function
returns `fmt.Errorf("lands: error setting up listener: %w", e)`: a value that
unwraps to `e` and whose text is that prefix followed by the text of `e`.  In
every state of such a call at most one call tried to obtain a listener, nothing
was printed, `hs.Serve` and `hs.Shutdown` were not called and the coordinator
goroutine was never started; and the call does return: three steps of the
calling goroutine from function entry (setup and the `return` statement, the
deferred calls, the return to the caller) end the call, with exactly one attempt
made. -/
theorem C4_setup_failure (w : World) (addr : String) (e : GoError) (s : State)
    (hfail : (setupListener w addr).2 = .error e) (h : Reachable w addr s) :
    (∀ r, s.result = some r →
      r = some (GoError.Errorf "lands: error setting up listener: " e) ∧
      ∃ err, r = some err ∧ err.Unwrap = some e ∧
        err.Error = "lands: error setting up listener: " ++ e.Error) ∧
    (s.trace.filter Event.isBind).length ≤ 1 ∧
    (∀ line, Event.Println line ∉ s.trace) ∧
    (∀ l, Event.Serve l ∉ s.trace) ∧
    (∀ n, Event.Shutdown n ∉ s.trace) ∧
    s.coord = .notStarted ∧
    (∃ s', run w addr [Label.main, Label.main, Label.main] State.init = some s' ∧
      s'.result = some (some (GoError.Errorf "lands: error setting up listener: " e)) ∧
      (s'.trace.filter Event.isBind).length = 1) := by
  have hinv := inv_reachable h
  have hpc := hinv.pc
  have hmain : s.main = .entry ∨ s.main = .deferred (.line42 e) ∨
      s.main = .exiting (.line42 e) ∨ s.main = .returned (.line42 e) := by
    rcases hs : s.main with _ | l | l | _ | site | site | site <;> rw [hs] at hpc <;>
      try rcases site with e' | _ | e' | _ | e'
    all_goals simp_all [pcOK, siteOK]
  have hcoord : s.coord = .notStarted := by
    rw [hinv.started]
    rcases hmain with hm | hm | hm | hm <;> rw [hm] <;> rfl
  refine ⟨?_, ?_, ?_, ?_, ?_, hcoord, ?_⟩
  · intro r hr
    rcases hmain with hm | hm | hm | hm <;> simp [State.result, hm] at hr
    subst hr
    exact ⟨rfl, _, rfl, rfl, rfl⟩
  · by_cases hentry : s.main = .entry
    · rw [filter_eq_filter_mainEvents Event.isBind
        (by intro e he; cases e <;> simp_all [Event.isBind, Event.byCoord]), hinv.mainLog, hentry]
      simp [mainLog]
    · rw [bind_filter_trace hinv hentry, setup_bind_length]
  · intro line
    rw [mem_trace_iff_mainLog hinv (Event.Println line) rfl]
    have h1 := not_mem_setup w addr (Event.Println line) rfl
    have h2 := not_mem_deferredCalls w (Event.Println line) (by simp) (by simp)
    rcases hmain with hm | hm | hm | hm <;> rw [hm] <;>
      simp [mainLog, servedLog, hfail, setupLog, siteLog, h1, h2]
  · intro l
    rw [mem_trace_iff_mainLog hinv (Event.Serve l) rfl]
    have h1 := not_mem_setup w addr (Event.Serve l) rfl
    have h2 := not_mem_deferredCalls w (Event.Serve l) (by simp) (by simp)
    rcases hmain with hm | hm | hm | hm <;> rw [hm] <;>
      simp [mainLog, servedLog, hfail, setupLog, siteLog, h1, h2]
  · intro n
    rw [mem_trace_iff_coordLog hinv (Event.Shutdown n) rfl, hcoord]
    simp [coordLog]
  · have h1 : ∃ evs, setupListener w addr = (evs, .error e) :=
      ⟨(setupListener w addr).1, by rw [← hfail]⟩
    obtain ⟨evs, hevs⟩ := h1
    have hlen := setup_bind_length w addr
    rw [hevs] at hlen
    simp only at hlen
    refine ⟨_, by simp [run, step, stepMain, hevs, State.init]; rfl,
      by simp [State.result, RetSite.result], ?_⟩
    simp only [List.nil_append, List.filter_append, List.filter_cons, Event.isBind, List.length_append]
    simp [hlen, deferredCalls]
    split <;> simp [Event.isBind]

/-- C4 at a bind of port 80 refused by the kernel. -/
theorem C4_witness :
    (setupListener worldBindFails ":80").2 =
      .error (GoError.other "listen tcp :80: bind: permission denied") ∧
    (stateAfter worldBindFails ":80" [Label.main, Label.main, Label.main]).result =
      some (some (GoError.Errorf "lands: error setting up listener: "
        (GoError.other "listen tcp :80: bind: permission denied"))) ∧
    ∀ l, Event.Serve l ∉ (stateAfter worldBindFails ":80" [Label.main, Label.main, Label.main]).trace :=
  ⟨rfl, rfl,
    (C4_setup_failure worldBindFails ":80" _ _ rfl
      ⟨[Label.main, Label.main, Label.main], rfl⟩).2.2.2.1⟩

/-! ## Serve and shutdown reconciliation -/

/-- C5: when the serve loop returned `http.ErrServerClosed` and the call has
returned `r`, then `hs.Shutdown` has returned, it returned exactly one value
`sr`, and `r` is decided by `sr`: `nil` when `sr` is `nil`, and
`fmt.Errorf("lands: error shutting down: %w", e)` when `sr` is the error `e`.
And the call does return: from any state in which the calling goroutine is at
the receive of line 63 and `hs.Shutdown` has returned `sr`, the two goroutines
alone, without any further outside event, reach the `return` with that value. -/
theorem C5_closed_result_from_shutdown (w : World) (addr : String) (s : State)
    (h : Reachable w addr s) :
    (∀ r, s.result = some r →
      Event.ServeReturn (some GoError.ErrServerClosed) ∈ s.trace →
      ∃ sr, Event.ShutdownReturn sr ∈ s.trace ∧
        (∀ sr', Event.ShutdownReturn sr' ∈ s.trace → sr' = sr) ∧
        r = shutdownOutcome sr) ∧
    shutdownOutcome none = none ∧
    (∀ e, shutdownOutcome (some e) = some (GoError.Errorf "lands: error shutting down: " e) ∧
      ∃ err, shutdownOutcome (some e) = some err ∧ err.Unwrap = some e ∧
        err.Error = "lands: error shutting down: " ++ e.Error) ∧
    (∀ sr, s.main = .recv → Event.ShutdownReturn sr ∈ s.trace →
      ∃ sched, internalOnly sched ∧ resultAfter w addr sched s = some (shutdownOutcome sr)) := by
  have hinv := inv_reachable h
  refine ⟨?_, rfl, fun e => ⟨rfl, _, rfl, rfl, rfl⟩, ?_⟩
  · intro r hr hmem
    rw [mem_trace_iff_mainLog hinv (Event.ServeReturn (some GoError.ErrServerClosed)) rfl] at hmem
    have hpc := hinv.pc
    have hlink := hinv.link
    rcases hs : s.main with _ | l | l | _ | site | site | site <;> rw [hs] at hmem hpc hlink <;>
      simp [State.result, hs] at hr
    subst hr
    have hmemc : ∀ sr', Event.ShutdownReturn sr' ∈ s.trace ↔
        (∃ e, s.coord = .send e ∧ sr' = some e) ∨ s.coord = .closing sr' ∨ s.coord = .exited sr' :=
      fun sr' => by
        rw [mem_trace_iff_coordLog hinv (Event.ShutdownReturn sr') rfl,
          shutdownReturn_mem_coordLog]
    rcases serveClosed_mem_mainLog hpc hmem with ⟨e, rfl⟩ | rfl
    · refine ⟨some e, ?_, ?_, rfl⟩
      · rw [hmemc]
        rcases hlink with hc | hc <;> simp [hc]
      · intro sr'
        rw [hmemc]
        rcases hlink with hc | hc <;> simp [hc] <;> exact eq_comm.mp
    · simp only [recvLink] at hlink
      refine ⟨none, ?_, ?_, rfl⟩
      · rw [hmemc]
        simp [hlink]
      · intro sr'
        rw [hmemc]
        simp [hlink]
        exact eq_comm.mp
  · intro sr hrecv hmem
    rw [mem_trace_iff_coordLog hinv (Event.ShutdownReturn sr) rfl,
      shutdownReturn_mem_coordLog] at hmem
    have hbuf := hinv.buf
    have hcl := hinv.closed
    obtain ⟨main, coord, pd, sg, st, buf, cl, tr⟩ := s
    simp only at hrecv hmem hbuf hcl
    subst hrecv
    rcases hmem with ⟨e, hc, rfl⟩ | hc | hc <;> subst hc <;>
      simp [mainReceived, coordSent, coordExited] at hbuf hcl <;> subst hcl
    · subst hbuf
      refine ⟨[Label.coord, Label.coord, Label.main, Label.main, Label.main],
        by intro lab hlab; simp at hlab; tauto, ?_⟩
      simp [resultAfter, run, step, stepMain, stepCoord, chanCap, State.result, RetSite.result,
        shutdownOutcome]
    · rcases sr with _ | e <;> simp [coordSent] at hbuf <;> subst hbuf <;>
        refine ⟨[Label.coord, Label.main, Label.main, Label.main],
          by intro lab hlab; simp at hlab; tauto, ?_⟩ <;>
        simp [resultAfter, run, step, stepMain, stepCoord, chanCap, State.result, RetSite.result,
          shutdownOutcome]
    · rcases sr with _ | e <;> simp [coordSent] at hbuf <;> subst hbuf <;>
        refine ⟨[Label.main, Label.main, Label.main],
          by intro lab hlab; simp at hlab; tauto, ?_⟩ <;>
        simp [resultAfter, run, step, stepMain, stepCoord, chanCap, State.result, RetSite.result,
          shutdownOutcome]

/-- C5 at a run whose graceful stop times out: the call returns the shutdown
failure wrapping the timeout error. -/
theorem C5_witness :
    (stateAfter worldPort "localhost:9999" schedShutdownTimeout).result =
      some (some (GoError.Errorf "lands: error shutting down: "
        (GoError.other "context deadline exceeded"))) ∧
    ∃ sr, Event.ShutdownReturn sr ∈ (stateAfter worldPort "localhost:9999" schedShutdownTimeout).trace ∧
      (∀ sr', Event.ShutdownReturn sr' ∈
        (stateAfter worldPort "localhost:9999" schedShutdownTimeout).trace → sr' = sr) ∧
      some (GoError.Errorf "lands: error shutting down: "
        (GoError.other "context deadline exceeded")) = shutdownOutcome sr :=
  ⟨rfl, (C5_closed_result_from_shutdown worldPort "localhost:9999"
    (stateAfter worldPort "localhost:9999" schedShutdownTimeout)
    ⟨schedShutdownTimeout, rfl⟩).1 _ rfl (by decide)⟩

/-- C6: when the serve loop returned an error `e` that is not
`http.ErrServerClosed`, then in every state of the call no receive from
`errShutdown` has happened, and if the call has returned, it returned
`fmt.Errorf("lands: error serving: %w", e)`: a value that unwraps to `e`, whose
text is that prefix followed by the text of `e`, and that is not a shutdown
failure.  And the call does return at once: from any state in which the
calling goroutine is inside `hs.Serve`, whatever the coordinator has done or
left in the channel, the return of `e` followed by two steps of the calling
goroutine (the deferred calls, the return to the caller) ends the call, leaving
channel and coordinator untouched. -/
theorem C6_serve_failure (w : World) (addr : String) (s : State) (e : GoError)
    (h : Reachable w addr s) (hne : e ≠ GoError.ErrServerClosed) :
    (Event.ServeReturn (some e) ∈ s.trace →
      (∀ v, Event.Recv v ∉ s.trace) ∧
      (∀ r, s.result = some r →
        r = some (GoError.Errorf "lands: error serving: " e) ∧
        (∀ e', r ≠ some (GoError.Errorf "lands: error shutting down: " e')) ∧
        ∃ err, r = some err ∧ err.Unwrap = some e ∧
          err.Error = "lands: error serving: " ++ e.Error)) ∧
    (∀ l, s.main = .serving l →
      ∃ s', run w addr [Label.serveReturns (some e), Label.main, Label.main] s = some s' ∧
        s'.result = some (some (GoError.Errorf "lands: error serving: " e)) ∧
        s'.coord = s.coord ∧ s'.chanBuf = s.chanBuf ∧ s'.chanClosed = s.chanClosed ∧
        ∀ v, Event.Recv v ∉ s'.trace) := by
  have hinv := inv_reachable h
  have hrecv : ∀ s', Inv w addr s' → Event.ServeReturn (some e) ∈ s'.trace →
      ∀ v, Event.Recv v ∉ s'.trace := by
    intro s' hinv' hmem v
    rw [mem_trace_iff_mainLog hinv' (Event.ServeReturn (some e)) rfl] at hmem
    rw [mem_trace_iff_mainLog hinv' (Event.Recv v) rfl]
    rcases serveReturn_mem_mainLog hinv'.pc hne hmem with hm | hm | hm <;> rw [hm]
    · exact (recv_not_mem_mainLog w addr e v).1
    · exact (recv_not_mem_mainLog w addr e v).2.1
    · exact (recv_not_mem_mainLog w addr e v).2.2
  refine ⟨?_, ?_⟩
  · intro hmem
    refine ⟨hrecv s hinv hmem, ?_⟩
    intro r hr
    rw [mem_trace_iff_mainLog hinv (Event.ServeReturn (some e)) rfl] at hmem
    rcases serveReturn_mem_mainLog hinv.pc hne hmem with hm | hm | hm <;>
      simp [State.result, hm] at hr
    subst hr
    exact ⟨rfl, by intro e'; simp [RetSite.result], _, rfl, rfl, rfl⟩
  · intro l hl
    have hrun : run w addr [Label.serveReturns (some e), Label.main, Label.main] s =
        some { s with main := .returned (.line68 e), stopped := true,
                      trace := s.trace ++ [Event.ServeReturn (some e)] ++ deferredCalls w ++
                        [Event.Return (RetSite.line68 e).result] } := by
      obtain ⟨main, coord, pd, sg, st, buf, cl, tr⟩ := s
      simp only at hl
      subst hl
      simp [run, step, stepMain, hne]
    refine ⟨_, hrun, rfl, rfl, rfl, rfl, ?_⟩
    have hinv' := inv_run _ hinv hrun
    exact hrecv _ hinv' (by simp)

/-- C6 at a listener closed from outside while no cancellation happened. -/
theorem C6_witness :
    (stateAfter worldPort "localhost:9999" schedServeFails).result =
      some (some (GoError.Errorf "lands: error serving: "
        (GoError.other "accept tcp [::]:8080: use of closed network connection"))) ∧
    ∀ v, Event.Recv v ∉ (stateAfter worldPort "localhost:9999" schedServeFails).trace :=
  ⟨rfl, ((C6_serve_failure worldPort "localhost:9999"
    (stateAfter worldPort "localhost:9999" schedServeFails)
    (GoError.other "accept tcp [::]:8080: use of closed network connection")
    ⟨schedServeFails, rfl⟩ (by decide)).1 (by decide)).1⟩

/-- C7 as stated fails: in this run `hs.Shutdown` returned the error
`context deadline exceeded` during the call, the coordinator put it into
`errShutdown`, and the call returned the serve failure, which does not wrap the
shutdown error under any annotation; the shutdown error stays unread in the
channel.  So it is not true that every error produced by a phase is wrapped in
the returned value. -/
theorem C7_counterexample :
    (stateAfter worldPort "localhost:9999" schedServeFailsShutdownFails).result =
      some (some (GoError.Errorf "lands: error serving: "
        (GoError.other "accept tcp [::]:8080: use of closed network connection"))) ∧
    Event.ShutdownReturn (some (GoError.other "context deadline exceeded")) ∈
      (stateAfter worldPort "localhost:9999" schedServeFailsShutdownFails).trace ∧
    (stateAfter worldPort "localhost:9999" schedServeFailsShutdownFails).chanBuf =
      [some (GoError.other "context deadline exceeded")] ∧
    ¬ (∀ (w : World) (addr : String) (s : State) (r : Option GoError) (e : GoError),
        Reachable w addr s → s.result = some r → Event.ShutdownReturn (some e) ∈ s.trace →
        ∃ err, r = some err ∧ err.Unwrap = some e) := by
  refine ⟨rfl, by decide, rfl, ?_⟩
  intro hall
  obtain ⟨err, h1, h2⟩ := hall worldPort "localhost:9999"
    (stateAfter worldPort "localhost:9999" schedServeFailsShutdownFails)
    (some (GoError.Errorf "lands: error serving: "
      (GoError.other "accept tcp [::]:8080: use of closed network connection")))
    (GoError.other "context deadline exceeded") ⟨schedServeFailsShutdownFails, rfl⟩ rfl
    (by decide)
  simp only [Option.some.injEq] at h1
  subst h1
  simp [GoError.Unwrap] at h2

/-- C7, amended: when the call has returned `r`, a setup error `e` is returned
as `fmt.Errorf("lands: error setting up listener: %w", e)`; an error `e` other
than `http.ErrServerClosed` returned by the serve loop is returned as
`fmt.Errorf("lands: error serving: %w", e)`, whatever `hs.Shutdown` did; and an
error `e` returned by `hs.Shutdown` is returned as
`fmt.Errorf("lands: error shutting down: %w", e)` when the serve loop returned
`http.ErrServerClosed`.  The call returned `nil` exactly when the serve loop
returned `nil`, or returned `http.ErrServerClosed` and `hs.Shutdown` returned
`nil`.  When the serve loop returned anything but `http.ErrServerClosed`, no
receive from `errShutdown` has happened. -/
theorem C7_errors_surfaced (w : World) (addr : String) (s : State) (r : Option GoError)
    (h : Reachable w addr s) (hr : s.result = some r) :
    (∀ e, (setupListener w addr).2 = .error e →
      r = some (GoError.Errorf "lands: error setting up listener: " e)) ∧
    (∀ e, e ≠ GoError.ErrServerClosed → Event.ServeReturn (some e) ∈ s.trace →
      r = some (GoError.Errorf "lands: error serving: " e)) ∧
    (∀ e, Event.ServeReturn (some GoError.ErrServerClosed) ∈ s.trace →
      Event.ShutdownReturn (some e) ∈ s.trace →
      r = some (GoError.Errorf "lands: error shutting down: " e)) ∧
    (r = none ↔ (Event.ServeReturn none ∈ s.trace ∨
      (Event.ServeReturn (some GoError.ErrServerClosed) ∈ s.trace ∧
        Event.ShutdownReturn none ∈ s.trace))) ∧
    (∀ r', r' ≠ some GoError.ErrServerClosed → Event.ServeReturn r' ∈ s.trace →
      ∀ v, Event.Recv v ∉ s.trace) := by
  have hinv := inv_reachable h
  have hpc := hinv.pc
  have hlink := hinv.link
  have hserve : ∀ r', Event.ServeReturn r' ∈ s.trace ↔ Event.ServeReturn r' ∈ mainLog w addr s.main :=
    fun r' => mem_trace_iff_mainLog hinv (Event.ServeReturn r') rfl
  have hnoRecv : ∀ r', r' ≠ some GoError.ErrServerClosed → Event.ServeReturn r' ∈ s.trace →
      ∀ v, Event.Recv v ∉ s.trace := by
    intro r' hne hmem v
    rw [mem_trace_iff_mainLog hinv (Event.Recv v) rfl]
    exact recv_not_mem_of_serveReturn hinv.pc hne ((hserve r').mp hmem) v
  have core : (∀ e, (setupListener w addr).2 = .error e →
        r = some (GoError.Errorf "lands: error setting up listener: " e)) ∧
      (∀ e, e ≠ GoError.ErrServerClosed → Event.ServeReturn (some e) ∈ s.trace →
        r = some (GoError.Errorf "lands: error serving: " e)) ∧
      (∀ e, Event.ServeReturn (some GoError.ErrServerClosed) ∈ s.trace →
        Event.ShutdownReturn (some e) ∈ s.trace →
        r = some (GoError.Errorf "lands: error shutting down: " e)) ∧
      (r = none ↔ (Event.ServeReturn none ∈ s.trace ∨
        (Event.ServeReturn (some GoError.ErrServerClosed) ∈ s.trace ∧
          Event.ShutdownReturn none ∈ s.trace))) := by
    have hshut : ∀ sr', Event.ShutdownReturn sr' ∈ s.trace ↔
        (∃ e, s.coord = .send e ∧ sr' = some e) ∨ s.coord = .closing sr' ∨ s.coord = .exited sr' :=
      fun sr' => by
        rw [mem_trace_iff_coordLog hinv (Event.ShutdownReturn sr') rfl, shutdownReturn_mem_coordLog]
    rcases hs : s.main with _ | l | l | _ | site | site | site <;> rw [hs] at hpc hlink hserve <;>
      simp [State.result, hs] at hr
    subst hr
    have hsr : ∀ r', Event.ServeReturn r' ∈ s.trace ↔ siteServe site = some r' :=
      fun r' => (hserve r').trans (serveReturn_mem_returned hpc r')
    clear hnoRecv hserve hs hinv h
    rcases site with e' | _ | e' | _ | e'
    · simp only [pcOK, siteOK] at hpc
      simp [hsr, siteServe, RetSite.result, hpc]
    · obtain ⟨l, hl⟩ := hpc
      simp [hsr, siteServe, RetSite.result, hl]
    · obtain ⟨l, hl⟩ := hpc
      simp only [recvLink] at hlink
      refine ⟨by simp [hl], ?_, ?_, ?_⟩
      · intro e hne hmem
        simp only [hsr, siteServe, Option.some.injEq] at hmem
        exact absurd hmem.symm hne
      · intro e _ hmem
        rw [hshut] at hmem
        rcases hlink with hc | hc <;> simp [hc] at hmem <;> simp [RetSite.result, hmem]
      · simp only [hsr, hshut, siteServe, RetSite.result]
        rcases hlink with hc | hc <;> simp [hc]
    · obtain ⟨l, hl⟩ := hpc
      simp only [recvLink] at hlink
      refine ⟨by simp [hl], ?_, ?_, ?_⟩
      · intro e hne hmem
        simp only [hsr, siteServe, Option.some.injEq] at hmem
        exact absurd hmem.symm hne
      · intro e _ hmem
        rw [hshut] at hmem
        simp [hlink] at hmem
      · simp only [hsr, hshut, siteServe, RetSite.result]
        simp [hlink]
    · obtain ⟨hne', l, hl⟩ := hpc
      refine ⟨by simp [hl], ?_, ?_, ?_⟩
      · intro e hne hmem
        simp only [hsr, siteServe, Option.some.injEq] at hmem
        subst hmem
        rfl
      · intro e hmem
        simp only [hsr, siteServe, Option.some.injEq] at hmem
        exact absurd hmem hne'
      · simp only [hsr, hshut, siteServe, RetSite.result]
        simp [hne']
  exact ⟨core.1, core.2.1, core.2.2.1, core.2.2.2, hnoRecv⟩

/-- C7 (amended) at a run whose graceful stop times out after the serve loop
stopped with `http.ErrServerClosed`. -/
theorem C7_witness :
    (stateAfter worldPort "localhost:9999" schedShutdownTimeout).result =
      some (some (GoError.Errorf "lands: error shutting down: "
        (GoError.other "context deadline exceeded"))) :=
  Eq.trans rfl (congrArg (fun x => some x)
    ((C7_errors_surfaced worldPort "localhost:9999"
      (stateAfter worldPort "localhost:9999" schedShutdownTimeout) _
      ⟨schedShutdownTimeout, rfl⟩ rfl).2.2.1 (GoError.other "context deadline exceeded")
      (by decide) (by decide)))

/-! ## Startup notice -/

/-- C8: when listener setup succeeds with listener `l`, the writes to standard
output and the calls of `hs.Serve` in the trace of any state of the call are:
none while the calling goroutine has not passed line 58, and afterwards exactly
one `fmt.Println` followed by the call `hs.Serve(l)`.  The printed text is
`"Serving on http://"`, then `l.Addr().String()` (the bound address reported by
the listener, not the requested one), then `"/"`.  Two steps of the calling
goroutine from function entry reach the serve loop with the line printed. -/
theorem C8_startup_notice (w : World) (addr : String) (l : Listener) (s : State)
    (hl : (setupListener w addr).2 = .ok l) (h : Reachable w addr s) :
    (s.trace.filter Event.isPrintOrServe =
      if mainBeforeNotice s.main then [] else [Event.Println (startupNotice l), Event.Serve l]) ∧
    (s.trace.filter Event.isPrintln =
      if mainBeforeNotice s.main then [] else [Event.Println (startupNotice l)]) ∧
    startupNotice l = "Serving on http://" ++ l.addr ++ "/" ∧
    (∃ s', run w addr [Label.main, Label.main] State.init = some s' ∧
      s'.main = .serving l ∧
      s'.trace.filter Event.isPrintOrServe = [Event.Println (startupNotice l), Event.Serve l]) := by
  have hinv := inv_reachable h
  have key : s.trace.filter Event.isPrintOrServe =
      if mainBeforeNotice s.main then [] else [Event.Println (startupNotice l), Event.Serve l] := by
    rw [filter_eq_filter_mainEvents Event.isPrintOrServe
      (by intro e he; cases e <;> simp_all [Event.isPrintOrServe, Event.byCoord]), hinv.mainLog]
    exact printOrServe_filter_mainLog w addr l s.main hl
  refine ⟨key, ?_, rfl, ?_⟩
  · have h1 : s.trace.filter Event.isPrintln =
        (s.trace.filter Event.isPrintOrServe).filter Event.isPrintln := by
      rw [List.filter_filter]
      apply List.filter_congr
      intro e _
      cases e <;> simp [Event.isPrintln, Event.isPrintOrServe]
    rw [h1, key]
    split <;> simp [Event.isPrintln]
  · have h1 : ∃ evs, setupListener w addr = (evs, .ok l) :=
      ⟨(setupListener w addr).1, by rw [← hl]⟩
    obtain ⟨evs, hevs⟩ := h1
    have h2 := filter_setup_nil w addr Event.isPrintOrServe
      (by intro e he; cases e <;> simp_all [Event.isSetupCall, Event.isPrintOrServe])
    rw [hevs] at h2
    simp only at h2
    refine ⟨_, by simp [run, step, stepMain, hevs, State.init]; rfl, rfl, ?_⟩
    simp [List.filter_cons, Event.isPrintOrServe, h2]

/-- C8 at `PORT=8080`: the notice shows the address the listener reports,
`[::]:8080`, not the requested `:8080` or the default address. -/
theorem C8_witness :
    (stateAfter worldPort "localhost:9999" [Label.main, Label.main]).trace.filter Event.isPrintln =
      [Event.Println "Serving on http://[::]:8080/"] :=
  (C8_startup_notice worldPort "localhost:9999" ⟨ListenerSrc.tcp "tcp" ":8080", "[::]:8080"⟩
    (stateAfter worldPort "localhost:9999" [Label.main, Label.main]) rfl
    ⟨[Label.main, Label.main], rfl⟩).2.1

/-! ## The shutdown coordinator -/

/-- C9 as stated fails: in this run listener setup succeeds, `SIGTERM`
arrives, `hs.Shutdown` returns `nil`, and the coordinator finishes having
closed `errShutdown` without ever writing to it (the `nil` the calling
goroutine receives comes from the closed channel).  So the coordinator does not
write its outcome exactly once in every call. -/
theorem C9_counterexample :
    (setupListener worldPort "localhost:9999").2 =
      .ok ⟨ListenerSrc.tcp "tcp" ":8080", "[::]:8080"⟩ ∧
    (stateAfter worldPort "localhost:9999" schedGraceful).coord = CoordPc.exited none ∧
    Event.ShutdownReturn none ∈ (stateAfter worldPort "localhost:9999" schedGraceful).trace ∧
    (stateAfter worldPort "localhost:9999" schedGraceful).trace.filter Event.isSend = [] ∧
    (stateAfter worldPort "localhost:9999" schedGraceful).trace.filter Event.isChanWrite =
      [Event.Close] ∧
    (stateAfter worldPort "localhost:9999" schedGraceful).result = some none ∧
    ¬ (∀ (w : World) (addr : String) (s : State) (l : Listener) (r : Option GoError),
        Reachable w addr s → (setupListener w addr).2 = .ok l → s.coord = CoordPc.exited r →
        s.trace.filter Event.isSend = [Event.Send r]) := by
  refine ⟨rfl, rfl, by decide, rfl, rfl, rfl, ?_⟩
  intro hall
  have h1 := hall worldPort "localhost:9999" (stateAfter worldPort "localhost:9999" schedGraceful)
    _ none ⟨schedGraceful, rfl⟩ rfl rfl
  exact absurd h1 (by decide)

/-- C9, amended: the coordinator writes to `errShutdown` at most once, and only
an error that `hs.Shutdown` returned.  Once the coordinator has finished, what
it did after the graceful stop is: `hs.Shutdown` returned `nil`, then the
close; or `hs.Shutdown` returned the error `e`, then one send of `e`, then the
close; the channel is then closed.  Before it has finished the channel is not
closed.  The send never blocks, and once `hs.Shutdown` has returned the
coordinator finishes on its own. -/
theorem C9_outcome_channel (w : World) (addr : String) (s : State) (h : Reachable w addr s) :
    (s.trace.filter Event.isSend).length ≤ 1 ∧
    (∀ v, Event.Send v ∈ s.trace → ∃ e, v = some e ∧ Event.ShutdownReturn (some e) ∈ s.trace) ∧
    (∀ r, s.coord = .exited r →
      s.chanClosed = true ∧
      s.trace.filter Event.isChanWrite =
        (match r with
          | none => [Event.Close]
          | some e => [Event.Send (some e), Event.Close]) ∧
      s.trace.filter Event.isCoordOutcome =
        (match r with
          | none => [Event.ShutdownReturn none, Event.Close]
          | some e => [Event.ShutdownReturn (some e), Event.Send (some e), Event.Close])) ∧
    ((∀ r, s.coord ≠ .exited r) → Event.Close ∉ s.trace ∧ s.chanClosed = false) ∧
    (∀ e, s.coord = .send e → ∃ s', stepCoord s = some s' ∧ s'.chanBuf = [some e]) ∧
    (∀ sr, Event.ShutdownReturn sr ∈ s.trace →
      ∃ sched s', coordOnly sched ∧ run w addr sched s = some s' ∧ s'.coord = .exited sr) := by
  have hinv := inv_reachable h
  have hsend := filter_trace_coordLog hinv Event.isSend
    (by intro e he; cases e <;> simp_all [Event.isSend, Event.byCoord])
  have hwrite := filter_trace_coordLog hinv Event.isChanWrite
    (by intro e he; cases e <;> simp_all [Event.isChanWrite, Event.byCoord])
  have hout := filter_trace_coordLog hinv Event.isCoordOutcome
    (by intro e he; cases e <;> simp_all [Event.isCoordOutcome, Event.byCoord])
  have hmem := fun e he => mem_trace_iff_coordLog hinv e he
  have hbuf := hinv.buf
  have hcl := hinv.closed
  have hlink := hinv.link
  refine ⟨?_, ?_, ?_, ?_, ?_, ?_⟩
  · rw [hsend]
    rcases s.coord with _ | _ | _ | e | r | r <;> try rcases r with _ | e
    all_goals simp [coordLog, List.filter_cons, Event.isSend]
  · intro v
    rw [hmem (Event.Send v) rfl]
    intro hv
    rcases hc : s.coord with _ | _ | _ | e | r | r <;> try rcases r with _ | e
    all_goals rw [hc] at hv
    all_goals simp [coordLog] at hv
    all_goals exact ⟨e, hv, by rw [hmem (Event.ShutdownReturn (some e)) rfl, hc]; simp [coordLog]⟩
  · intro r hr
    rw [hwrite, hout, hcl, hr]
    rcases r with _ | e <;>
      simp [coordLog, coordExited, List.filter_cons, Event.isChanWrite, Event.isCoordOutcome]
  · intro hne
    rw [hmem Event.Close rfl, hcl]
    rcases hc : s.coord with _ | _ | _ | e | r | r <;> try rcases r with _ | e
    all_goals first | exact absurd hc (hne _) | simp [coordLog, coordExited]
  · intro e he
    have hrecv : mainReceived s.main = false := mainReceived_of_send s.main e (he ▸ hlink)
    rw [he, hrecv] at hbuf
    rw [he] at hcl
    simp [coordSent, coordExited] at hbuf hcl
    refine ⟨_, by simp [stepCoord, he, hbuf, hcl, chanCap]; rfl, by simp [hbuf]⟩
  · intro sr
    rw [hmem (Event.ShutdownReturn sr) rfl, shutdownReturn_mem_coordLog]
    intro hsr
    have hrecv : (∃ e, s.coord = .send e) → s.chanBuf = [] ∧ s.chanClosed = false := by
      rintro ⟨e, he⟩
      have hrecv : mainReceived s.main = false := mainReceived_of_send s.main e (he ▸ hlink)
      rw [he, hrecv] at hbuf
      rw [he] at hcl
      simpa [coordSent, coordExited] using And.intro hbuf hcl
    obtain ⟨main, coord, pd, sg, st, buf, cl, tr⟩ := s
    simp only at hsr hrecv
    rcases hsr with ⟨e, hc, rfl⟩ | hc | hc <;> subst hc
    · obtain ⟨h1, h2⟩ := hrecv ⟨e, rfl⟩
      subst h1 h2
      exact ⟨[Label.coord, Label.coord], _, by intro lab hlab; simp at hlab; exact hlab,
        by simp [run, step, stepCoord, chanCap]; rfl, rfl⟩
    · exact ⟨[Label.coord], _, by intro lab hlab; simp at hlab; exact hlab,
        by simp [run, step, stepCoord]; rfl, rfl⟩
    · exact ⟨[], _, by intro lab hlab; simp at hlab, rfl, rfl⟩

/-- C9 (amended) at a run whose graceful stop times out: one send of the
timeout error, then the close. -/
theorem C9_witness :
    (stateAfter worldPort "localhost:9999" schedShutdownTimeout).trace.filter
        Event.isCoordOutcome =
      [Event.ShutdownReturn (some (GoError.other "context deadline exceeded")),
        Event.Send (some (GoError.other "context deadline exceeded")), Event.Close] :=
  ((C9_outcome_channel worldPort "localhost:9999"
    (stateAfter worldPort "localhost:9999" schedShutdownTimeout)
    ⟨schedShutdownTimeout, rfl⟩).2.2.1 (some (GoError.other "context deadline exceeded")) rfl).2.2

/-- C10 as stated fails: in this run nobody cancels the caller's context and no
signal arrives.  The serve loop fails with an accept error, the calling
goroutine executes `return` at line 68 and runs its deferred `cancel()` of line
26, which makes the context of line 25 done; the coordinator then gets past
`<-ctx.Done()` and calls `hs.Shutdown`, while the call has not yet returned to
its caller.  So `hs.Shutdown` is invoked although neither the caller's context
was cancelled nor `SIGINT`/`SIGTERM` delivered. -/
theorem C10_counterexample :
    (stateAfter worldPort "localhost:9999" schedServeFailsThenCancel).main =
      MainPc.exiting (RetSite.line68
        (GoError.other "accept tcp [::]:8080: use of closed network connection")) ∧
    (stateAfter worldPort "localhost:9999" schedServeFailsThenCancel).result = none ∧
    (stateAfter worldPort "localhost:9999" schedServeFailsThenCancel).parentDone = false ∧
    (stateAfter worldPort "localhost:9999" schedServeFailsThenCancel).signalled = false ∧
    Event.Cancel ∈ (stateAfter worldPort "localhost:9999" schedServeFailsThenCancel).trace ∧
    Event.Shutdown 10 ∈ (stateAfter worldPort "localhost:9999" schedServeFailsThenCancel).trace ∧
    ¬ (∀ (w : World) (addr : String) (s : State), Reachable w addr s →
        ∀ n, Event.Shutdown n ∈ s.trace → s.parentDone = true ∨ s.signalled = true) := by
  refine ⟨rfl, rfl, rfl, rfl, by decide, by decide, ?_⟩
  intro hall
  have h1 := hall worldPort "localhost:9999"
    (stateAfter worldPort "localhost:9999" schedServeFailsThenCancel)
    ⟨schedServeFailsThenCancel, rfl⟩ 10 (by decide)
  exact absurd h1 (by decide)

/-- C10, amended: in every state of a call, `hs.Shutdown` has been called at
most once (with the 10 second timeout), and only with the context returned by
`signal.NotifyContext` done.  That context is done when the caller's context
was cancelled, a notified signal (`SIGINT`, `SIGTERM`) was delivered, or the
function's own deferred `cancel()` has run: if `hs.Shutdown` has been called,
one of these three has happened.  The coordinator cannot move past
`<-ctx.Done()` while that context is not done. -/
theorem C10_shutdown_once_after_ctx_done (w : World) (addr : String) (s : State)
    (h : Reachable w addr s) :
    (s.trace.filter Event.isShutdownCall).length ≤ 1 ∧
    (∀ n, Event.Shutdown n ∈ s.trace → s.ctxDone = true ∧ n = 10) ∧
    (∀ n, Event.Shutdown n ∈ s.trace →
      s.parentDone = true ∨ s.signalled = true ∨ Event.Cancel ∈ s.trace) ∧
    (s.stopped = true ↔ Event.Cancel ∈ s.trace) ∧
    (s.coord = .waitDone → s.ctxDone = false → stepCoord s = none) ∧
    (s.ctxDone = false → ∀ n, Event.Shutdown n ∉ s.trace) := by
  have hinv := inv_reachable h
  have hcall := filter_trace_coordLog hinv Event.isShutdownCall
    (by intro e he; cases e <;> simp_all [Event.isShutdownCall, Event.byCoord])
  have hmem : ∀ n, Event.Shutdown n ∈ s.trace ↔
      coordPastWait s.coord = true ∧ n = shutdownTimeoutSeconds := fun n => by
    rw [mem_trace_iff_coordLog hinv (Event.Shutdown n) rfl, shutdown_mem_coordLog]
  have hcancel : s.stopped = true ↔ Event.Cancel ∈ s.trace := by
    rw [mem_trace_iff_mainLog hinv Event.Cancel rfl, cancel_mem_mainLog w addr s.main hinv.pc,
      hinv.stop]
  refine ⟨?_, ?_, ?_, hcancel, ?_, ?_⟩
  · rw [hcall]
    rcases s.coord with _ | _ | _ | e | r | r <;> try rcases r with _ | e
    all_goals simp [coordLog, List.filter_cons, Event.isShutdownCall]
  · intro n hn
    rw [hmem] at hn
    exact ⟨hinv.done hn.1, hn.2⟩
  · intro n hn
    rw [hmem] at hn
    have hdone := hinv.done hn.1
    rw [← hcancel]
    simpa [State.ctxDone, or_assoc] using hdone
  · intro hc hd
    simp [stepCoord, hc, hd]
  · intro hd n hn
    rw [hmem] at hn
    have hdone := hinv.done hn.1
    rw [hd] at hdone
    exact absurd hdone (by simp)

/-- C10 (amended) at a run with repeated cancellations and signals: one call
of `hs.Shutdown`. -/
theorem C10_witness :
    (stateAfter worldPort "localhost:9999" schedManySignals).trace.filter Event.isShutdownCall =
      [Event.Shutdown 10] ∧
    ((stateAfter worldPort "localhost:9999" schedManySignals).trace.filter
      Event.isShutdownCall).length ≤ 1 :=
  ⟨rfl, (C10_shutdown_once_after_ctx_done worldPort "localhost:9999"
    (stateAfter worldPort "localhost:9999" schedManySignals) ⟨schedManySignals, rfl⟩).1⟩

end Lands
